import Mathlib

/-!
Shallow embedding of the TypeComposer SSR engine (`src/index.ts` and
`src/polyfill/index.ts`).

The embedding covers: the request dispatcher (`render`, `controller`,
`mimeByExt` and the `decodeURIComponent(new URL(p, base).pathname)`
normalization it performs), the render pipeline (`renderHtml`), the
polyfill layer (`installPolyfills` and the individual shims), and the
backfilled `replaceWith` DOM operation.  External platform services
(jsdom, esbuild, the HTTP transport) are modelled as explicit parameters
or as faithful functional subsets of the platform APIs the code calls.
-/

/-! ## String helpers -/

/-- Boolean substring test on the character lists underlying strings. -/
def listInfixB (needle : List Char) : List Char → Bool
  | [] => needle.isPrefixOf []
  | c :: rest => needle.isPrefixOf (c :: rest) || listInfixB needle rest

/-- String containment: `needle` occurs contiguously inside `hay`. -/
def strContains (hay needle : String) : Bool :=
  listInfixB needle.data hay.data

/-- JavaScript `String.prototype.endsWith` on Lean strings. -/
def endsWithStr (s suf : String) : Bool :=
  suf.data.isSuffixOf s.data

/-- Lower-casing used by `mimeByExt` (`ext.toLowerCase()`). -/
def lowerStr (s : String) : String :=
  String.mk (s.data.map Char.toLower)

/-! ## Path normalization performed by the dispatcher

`render` computes `decodeURIComponent(new URL(urlPath || "/",
"http://localhost").pathname)`.  The two platform pieces are modelled on
the subset the server can receive: `pathnameOf` strips the fragment and
query, roots a relative path and resolves dot segments, leaving valid
percent-escapes untouched (as WHATWG `URL` does); `percentDecodeAux` is
`decodeURIComponent` on ASCII escapes, failing (`URIError`) on malformed
escapes. -/

/-- Numeric value of one hexadecimal digit, accepting both cases. -/
def hexVal (c : Char) : Option Nat :=
  let n := c.toNat
  if 48 ≤ n ∧ n ≤ 57 then some (n - 48)
  else if 97 ≤ n ∧ n ≤ 102 then some (n - 87)
  else if 65 ≤ n ∧ n ≤ 70 then some (n - 55)
  else none

/-- Modelled from the platform: `decodeURIComponent` restricted to ASCII
percent-escapes; a malformed escape or a non-ASCII byte yields `none`
(the platform throws `URIError` / decodes UTF-8 there, which this
development never exercises). -/
def percentDecodeAux : List Char → Option (List Char)
  | [] => some []
  | '%' :: a :: b :: rest =>
    match hexVal a, hexVal b with
    | some x, some y =>
      if 16 * x + y < 128 then
        match percentDecodeAux rest with
        | some cs => some (Char.ofNat (16 * x + y) :: cs)
        | none => none
      else none
    | _, _ => none
  | '%' :: _ => none
  | c :: rest =>
    match percentDecodeAux rest with
    | some cs => some (c :: cs)
    | none => none

/-- Split a character list at every slash. -/
def splitSlash : List Char → List (List Char)
  | [] => [[]]
  | c :: rest =>
    if c = '/' then [] :: splitSlash rest
    else
      match splitSlash rest with
      | [] => [[c]]
      | s :: ss => (c :: s) :: ss

/-- Resolve `.` and `..` path segments the way WHATWG URL parsing does. -/
def normSegs (acc : List (List Char)) : List (List Char) → List (List Char)
  | [] => acc
  | seg :: rest =>
    if seg = ['.'] then
      if rest = [] then acc ++ [[]] else normSegs acc rest
    else if seg = ['.', '.'] then
      if rest = [] then acc.dropLast ++ [[]] else normSegs acc.dropLast rest
    else normSegs (acc ++ [seg]) rest

/-- Rebuild a rooted path from its slash-separated segments. -/
def joinSlash (segs : List (List Char)) : List Char :=
  segs.foldl (fun acc s => acc ++ '/' :: s) []

/-- Modelled from the platform: `new URL(raw || "/",
"http://localhost").pathname` on the request paths the server receives —
fragment and query stripped, relative input rooted at `/`, dot segments
resolved, percent-escapes preserved. -/
def pathnameOf (raw : String) : String :=
  let s := if raw.data = [] then ['/'] else raw.data
  let cs := (s.takeWhile (fun c => c ≠ '#')).takeWhile (fun c => c ≠ '?')
  let cs2 := match cs with
    | '/' :: rest => rest
    | _ => cs
  String.mk (joinSlash (normSegs [] (splitSlash cs2)))

/-- The dispatcher's whole path normalization:
`decodeURIComponent(new URL(urlPath || "/", base).pathname)`; an `error`
result models the `URIError` that `decodeURIComponent` throws. -/
def normalizePath (raw : String) : Except String String :=
  match percentDecodeAux (pathnameOf raw).data with
  | some cs => Except.ok (String.mk cs)
  | none => Except.error "URIError: URI malformed"

/-! ## MIME lookup (`mimeByExt` and Node's `path.extname`) -/

/-- Characters of the final path component. -/
def afterLastSlash (cs : List Char) : List Char :=
  ((cs.reverse).takeWhile (fun c => c ≠ '/')).reverse

/-- Modelled from the platform: Node's `path.extname` on ordinary file
names — the suffix from the last dot of the final component, the empty
string when there is no dot or the only dot starts the component. -/
def extnameOf (p : String) : String :=
  let base := afterLastSlash p.data
  if base = ['.'] ∨ base = ['.', '.'] then ""
  else
    let revAfter := (base.reverse).takeWhile (fun c => c ≠ '.')
    if revAfter.length = base.length then ""
    else
      let i := base.length - 1 - revAfter.length
      if i = 0 then "" else String.mk (base.drop i)

/-- `mimeByExt` from `src/index.ts`: extension-keyed content types. -/
def mimeByExt (pathname : String) : String :=
  let ext := lowerStr (extnameOf pathname)
  if ext = ".js" ∨ ext = ".mjs" then "text/javascript; charset=utf-8"
  else if ext = ".css" then "text/css; charset=utf-8"
  else if ext = ".svg" then "image/svg+xml"
  else if ext = ".json" then "application/json; charset=utf-8"
  else if ext = ".wasm" then "application/wasm"
  else if ext = ".map" then "application/json; charset=utf-8"
  else if ext = ".png" then "image/png"
  else if ext = ".jpg" ∨ ext = ".jpeg" then "image/jpeg"
  else if ext = ".gif" then "image/gif"
  else if ext = ".html" then "text/html; charset=utf-8"
  else "application/octet-stream"

/-! ## Render pipeline (`renderHtml` from `src/index.ts`)

The synthetic document is modelled by the list of its body children; the
executed bundle is an opaque parameter `exec` mapping the bundle text and
the document body it runs in to the resulting body (the only way the
application can influence the serialized output).  `bundler` models
`bundleToIIFE`: esbuild either yields the bundle text or fails. -/

/-- A child of the synthetic document's body, as it serializes. -/
inductive BodyNode where
  | scriptSrc (src : String)
  | scriptInline (code : String)
  | htmlText (markup : String)
deriving DecidableEq

/-- How the readiness wait resolves. -/
inductive WaitMode where
  | immediate
  | listenForContentLoaded
deriving DecidableEq

/-- The `document.readyState` values the wait inspects. -/
inductive ReadyState where
  | loading
  | interactive
  | complete
deriving DecidableEq

/-- The readiness wait from `renderHtml` (lines 82-88): resolve at once
when `readyState` is `interactive` or `complete`, otherwise register a
once-only `DOMContentLoaded` listener. -/
def readyWait (rs : ReadyState) : WaitMode :=
  if rs = ReadyState.interactive ∨ rs = ReadyState.complete then
    WaitMode.immediate
  else WaitMode.listenForContentLoaded

/-- Observable steps of one `renderHtml` run, in execution order. -/
inductive REvent where
  | installShims
  | awaitReadiness (mode : WaitMode)
  | bundleBuild
  | createScript
  | appendScript
  | timerTick
  | serializeStep
deriving DecidableEq

/-- Predicate picking the script-append step out of a trace. -/
def isAppendScript : REvent → Bool
  | REvent.appendScript => true
  | _ => false

/-- Predicate picking the readiness wait out of a trace. -/
def isAwaitReadiness : REvent → Bool
  | REvent.awaitReadiness _ => true
  | _ => false

/-- Serialized markup of one body child: jsdom emits the injected
bootstrap script with its `type` attribute and inline text, an
application-created script with its `src` attribute. -/
def serializeNode : BodyNode → String
  | BodyNode.scriptSrc src => "<script src=\"" ++ src ++ "\"></script>"
  | BodyNode.scriptInline code =>
    "<script type=\"text/javascript\">" ++ code ++ "</script>"
  | BodyNode.htmlText markup => markup

/-- Serialized markup of the body children in order. -/
def serializeBody (l : List BodyNode) : String :=
  l.foldr (fun n acc => serializeNode n ++ acc) ""

/-- Markup of the fixed inline shell before the body children (the
template literal at `renderHtml` lines 62-71, as jsdom re-serializes
it). -/
def shellHead : String :=
  "<html lang=\"en\"><head><meta charset=\"UTF-8\"><title>TypeComposer</title><link rel=\"stylesheet\" href=\"./assets/index-glFbR1ha.css\"></head><body>"

/-- Markup of the fixed inline shell after the body children. -/
def shellFoot : String := "</body></html>"

/-- Body children of the freshly parsed shell (its body is empty). -/
def shellBody : List BodyNode := []

/-- `dom.serialize()`: the shell around the current body children. -/
def serializeDoc (body : List BodyNode) : String :=
  shellHead ++ serializeBody body ++ shellFoot

/-- `renderHtml` from `src/index.ts` (lines 61-100): build the shell
document, install the polyfills, wait for readiness, bundle the entry,
append a script node carrying the bundle text to the body (running it),
yield one timer tick, and return the doctype plus the serialized tree.
Returns the ordered step trace together with the outcome; a bundler
failure propagates (there is no catch inside `renderHtml`). -/
def renderHtml (bundler : String → Except String String)
    (exec : String → List BodyNode → List BodyNode)
    (rs : ReadyState) (entry : String) :
    List REvent × Except String String :=
  match bundler entry with
  | Except.error e =>
    ([REvent.installShims, REvent.awaitReadiness (readyWait rs),
      REvent.bundleBuild], Except.error e)
  | Except.ok code =>
    let d1 := shellBody ++ [BodyNode.scriptInline code]
    let d2 := exec code d1
    ([REvent.installShims, REvent.awaitReadiness (readyWait rs),
      REvent.bundleBuild, REvent.createScript, REvent.appendScript,
      REvent.timerTick, REvent.serializeStep],
     Except.ok ("<!doctype html>\n" ++ serializeDoc d2))

/-! ## Request dispatcher (`render` and `controller`) -/

/-- Response body: cached asset bytes or rendered/plain text. -/
inductive HttpBody where
  | bytes (bs : List Nat)
  | str (s : String)
deriving DecidableEq

/-- `IRenderResult` from `src/index.ts` (the single header the code sets
is `Content-Type`). -/
structure IRenderResult where
  statusCode : Nat
  contentType : String
  body : HttpBody
deriving DecidableEq

/-- The fixed bundle entry `render` passes to `renderHtml` (line 139). -/
def mainEntry : String := "src/template/assets/index-e5GZiL-9.js"

/-- `Engine.render` from `src/index.ts` (lines 121-157): normalize the
path, serve a cached asset byte-identically with its MIME type, render
the page for the root or an `.html` path, else answer 404.  Errors from
normalization or from `renderHtml` propagate to the caller. -/
def render (bundler : String → Except String String)
    (exec : String → List BodyNode → List BodyNode)
    (rs : ReadyState) (assets : List (String × List Nat))
    (urlPath : String) : Except String IRenderResult :=
  match normalizePath urlPath with
  | Except.error e => Except.error e
  | Except.ok url =>
    match assets.lookup url with
    | some body =>
      Except.ok { statusCode := 200, contentType := mimeByExt url,
                  body := HttpBody.bytes body }
    | none =>
      if url = "/" ∨ endsWithStr url ".html" = true then
        match (renderHtml bundler exec rs mainEntry).2 with
        | Except.error e => Except.error e
        | Except.ok html =>
          Except.ok { statusCode := 200,
                      contentType := "text/html; charset=utf-8",
                      body := HttpBody.str html }
      else
        Except.ok { statusCode := 404,
                    contentType := "text/plain; charset=utf-8",
                    body := HttpBody.str "Not Found" }

/-- `Engine.controller` from `src/index.ts` (lines 102-119): forward a
successful result, and turn any exception from `render` into the fixed
500 plain-text response. -/
def controller (r : Except String IRenderResult) : IRenderResult :=
  match r with
  | Except.ok res => res
  | Except.error _ =>
    { statusCode := 500, contentType := "text/plain; charset=utf-8",
      body := HttpBody.str "Internal Server Error" }

/-- One full request: dispatcher result fed through the controller. -/
def handle (bundler : String → Except String String)
    (exec : String → List BodyNode → List BodyNode)
    (rs : ReadyState) (assets : List (String × List Nat))
    (urlPath : String) : IRenderResult :=
  controller (render bundler exec rs assets urlPath)

/-! ## Polyfill layer (`src/polyfill/index.ts`)

A window-like object is modelled by the properties the shims read and
write: presence flags for the global constructors, and the prototype
objects of `Element` and `HTMLElement`.  `HTMLElement` may be its own
object or the very same object as `Element` (the state
`polyfillElementAPIs` creates with `win.HTMLElement = win.Element`).
Reading a member of an absent object (`undefined.prototype`) throws, so
every shim returns the mutated window together with a thrown flag, and
`installPolyfills` stops at the first throw, exactly as an uncaught
exception would. -/

/-- Value of the `matches` slot: missing, assigned `undefined` (the
vendor-prefix fallback when neither prefixed form exists), or a real
function.  Only a function is truthy. -/
inductive PropVal where
  | absent
  | undef
  | fn
deriving DecidableEq

/-- Truthiness of a `PropVal` under a JavaScript `if`. -/
def truthy : PropVal → Bool
  | PropVal.fn => true
  | _ => false

/-- The prototype members the shims read or install. -/
structure Proto where
  innerText : Bool
  matchesSel : PropVal
  msMatchesSelector : Bool
  webkitMatchesSelector : Bool
  closest : Bool
  containsMember : Bool
  removeMember : Bool
  replaceWithMember : Bool
  scrollTo : Bool
  attachShadow : Bool
deriving DecidableEq

/-- The `HTMLElement` slot: a distinct prototype of its own, or the very
object stored in the `Element` slot. -/
inductive HRef where
  | own (p : Proto)
  | aliasElement
deriving DecidableEq

/-- The window members the polyfill layer touches. -/
structure Window where
  matchMedia : Bool
  ShadowRoot : Bool
  CustomEvent : Bool
  EventCtor : Bool
  ResizeObserver : Bool
  IntersectionObserver : Bool
  ElementProto : Option Proto
  HTMLElementRef : Option HRef
deriving DecidableEq

/-- The prototype reached through `win.HTMLElement.prototype`, when
`win.HTMLElement` is not `undefined`. -/
def getHProto (w : Window) : Option Proto :=
  match w.HTMLElementRef with
  | none => none
  | some (HRef.own p) => some p
  | some HRef.aliasElement => w.ElementProto

/-- Write a member through `win.HTMLElement.prototype`: into the own
prototype, or into the shared `Element` prototype when aliased. -/
def setHProto (w : Window) (p : Proto) : Window :=
  match w.HTMLElementRef with
  | some (HRef.own _) => { w with HTMLElementRef := some (HRef.own p) }
  | some HRef.aliasElement => { w with ElementProto := some p }
  | none => w

/-- Write a member through `win.Element.prototype`. -/
def setEProto (w : Window) (p : Proto) : Window :=
  { w with ElementProto := some p }

/-- Outcome of one shim: the window as mutated so far, plus whether the
shim threw (a `TypeError` from touching a member of `undefined`). -/
structure PResult where
  thrown : Bool
  win : Window
deriving DecidableEq

/-- Sequence two shims: an uncaught throw aborts the rest. -/
def pseq (r : PResult) (f : Window → PResult) : PResult :=
  if r.thrown then r else f r.win

/-- `polyfillInnerText`: guarded by `win.HTMLElement &&
win.HTMLElement.prototype`, so it silently skips when `HTMLElement` is
missing; otherwise it defines the `innerText` accessor unless an own
descriptor already exists.  Never throws. -/
def polyfillInnerText (w : Window) : PResult :=
  match getHProto w with
  | none => { thrown := false, win := w }
  | some p =>
    if p.innerText then { thrown := false, win := w }
    else { thrown := false, win := setHProto w { p with innerText := true } }

/-- `polyfillShadowDOM`: when `ShadowRoot` is absent it assigns a stub
constructor and then dereferences `win.HTMLElement.prototype` — which
throws when `HTMLElement` is `undefined` (after `win.ShadowRoot` was
already assigned); otherwise it installs `attachShadow` on the
`HTMLElement` prototype. -/
def polyfillShadowDOM (w : Window) : PResult :=
  if w.ShadowRoot then { thrown := false, win := w }
  else
    let w1 := { w with ShadowRoot := true }
    match getHProto w1 with
    | none => { thrown := true, win := w1 }
    | some p =>
      { thrown := false, win := setHProto w1 { p with attachShadow := true } }

/-- `polyfillMatchMedia`: installs the stub query function when absent.
Never throws. -/
def polyfillMatchMedia (w : Window) : PResult :=
  if w.matchMedia then { thrown := false, win := w }
  else { thrown := false, win := { w with matchMedia := true } }

/-- Statement `if (!win.HTMLElement) win.HTMLElement = win.Element;` of
`polyfillElementAPIs`: when `HTMLElement` is missing it becomes the very
`Element` object (or stays `undefined` when `Element` is missing too). -/
def peaAliasStep (w : Window) : Window :=
  if w.HTMLElementRef = none then
    match w.ElementProto with
    | some _ => { w with HTMLElementRef := some HRef.aliasElement }
    | none => w
  else w

/-- Statement backfilling `matches` on `win.Element.prototype` from the
vendor-prefixed forms (their disjunction may be `undefined`); reading
`win.Element.prototype` throws when `Element` is `undefined`. -/
def peaMatchesStep (w : Window) : PResult :=
  match w.ElementProto with
  | none => { thrown := true, win := w }
  | some ep =>
    if truthy ep.matchesSel then { thrown := false, win := w }
    else
      { thrown := false,
        win := setEProto w
          { ep with matchesSel :=
              if ep.msMatchesSelector || ep.webkitMatchesSelector then
                PropVal.fn
              else PropVal.undef } }

/-- Statement backfilling `closest` on `win.Element.prototype`. -/
def peaClosestStep (w : Window) : PResult :=
  match w.ElementProto with
  | none => { thrown := true, win := w }
  | some ep =>
    if ep.closest then { thrown := false, win := w }
    else { thrown := false, win := setEProto w { ep with closest := true } }

/-- Statement backfilling `contains` on `win.HTMLElement.prototype`. -/
def peaContainsStep (w : Window) : PResult :=
  match getHProto w with
  | none => { thrown := true, win := w }
  | some hp =>
    if hp.containsMember then { thrown := false, win := w }
    else
      { thrown := false,
        win := setHProto w { hp with containsMember := true } }

/-- Statement backfilling `remove` on `win.HTMLElement.prototype`. -/
def peaRemoveStep (w : Window) : PResult :=
  match getHProto w with
  | none => { thrown := true, win := w }
  | some hp =>
    if hp.removeMember then { thrown := false, win := w }
    else
      { thrown := false, win := setHProto w { hp with removeMember := true } }

/-- Statement backfilling `replaceWith` on `win.HTMLElement.prototype`. -/
def peaReplaceWithStep (w : Window) : PResult :=
  match getHProto w with
  | none => { thrown := true, win := w }
  | some hp =>
    if hp.replaceWithMember then { thrown := false, win := w }
    else
      { thrown := false,
        win := setHProto w { hp with replaceWithMember := true } }

/-- `polyfillElementAPIs`: its six statements in source order — alias
`HTMLElement` to `Element` when missing, then backfill `matches`,
`closest`, `contains`, `remove` and `replaceWith`, each only when
absent; an uncaught throw (from dereferencing the prototype of a
missing object) aborts the rest of the function. -/
def polyfillElementAPIs (w : Window) : PResult :=
  pseq (pseq (pseq (pseq (peaMatchesStep (peaAliasStep w))
    peaClosestStep) peaContainsStep) peaRemoveStep) peaReplaceWithStep

/-- `polyfillDOMUtils`: dereferences `win.HTMLElement.prototype` —
throwing when `HTMLElement` is `undefined` — and backfills `scrollTo`,
then the `ResizeObserver` and `IntersectionObserver` stub classes. -/
def polyfillDOMUtils (w : Window) : PResult :=
  match getHProto w with
  | none => { thrown := true, win := w }
  | some p =>
    let w1 :=
      if p.scrollTo then w else setHProto w { p with scrollTo := true }
    let w2 :=
      if w1.ResizeObserver then w1 else { w1 with ResizeObserver := true }
    if w2.IntersectionObserver then { thrown := false, win := w2 }
    else { thrown := false, win := { w2 with IntersectionObserver := true } }

/-- `polyfillCustomEvent`: when `CustomEvent` is absent it assigns the
legacy-based constructor and then dereferences `win.Event.prototype` —
which throws when `Event` is `undefined` (after `win.CustomEvent` was
already assigned). -/
def polyfillCustomEvent (w : Window) : PResult :=
  if w.CustomEvent then { thrown := false, win := w }
  else
    let w1 := { w with CustomEvent := true }
    if w1.EventCtor then { thrown := false, win := w1 }
    else { thrown := true, win := w1 }

/-- `installPolyfills` (lines 221-228): the six shims in source order;
an uncaught throw in one aborts the remaining ones. -/
def installPolyfills (w : Window) : PResult :=
  pseq (pseq (pseq (pseq (pseq (polyfillMatchMedia w)
    polyfillInnerText) polyfillShadowDOM) polyfillElementAPIs)
    polyfillCustomEvent) polyfillDOMUtils

/-- A window with none of the relevant members: no constructors, no
element prototypes. -/
def emptyWindow : Window :=
  { matchMedia := false, ShadowRoot := false, CustomEvent := false,
    EventCtor := false, ResizeObserver := false,
    IntersectionObserver := false, ElementProto := none,
    HTMLElementRef := none }

/-! ## Backfilled `replaceWith` (`src/polyfill/index.ts` lines 131-148)

The DOM fragment manipulated by `replaceWith` is modelled by container
elements (identified by numbers) with ordered children lists; children
are element references or text nodes.  A node has at most one parent
(the first container whose children hold it), as in the DOM. -/

/-- An argument passed to `replaceWith`: an existing node or a string. -/
inductive Arg where
  | node (id : Nat)
  | str (s : String)
deriving DecidableEq

/-- A child entry: a reference to an element, or a text node. -/
inductive Item where
  | elem (id : Nat)
  | text (s : String)
deriving DecidableEq

/-- The document part `replaceWith` can touch: containers (element ids)
with their ordered children. -/
abbrev Doc := List (Nat × List Item)

/-- `node.parentNode`: the first container holding the element. -/
def findParent (doc : Doc) (id : Nat) : Option Nat :=
  match doc with
  | [] => none
  | (c, ch) :: rest =>
    if Item.elem id ∈ ch then some c else findParent rest id

/-- `parent.removeChild(node)`: drop the element from that container's
children. -/
def removeChild (doc : Doc) (p : Nat) (id : Nat) : Doc :=
  doc.map (fun en =>
    if en.1 = p then (en.1, en.2.filter (fun it => it ≠ Item.elem id))
    else en)

/-- One iteration of the reverse `while (i--)` loop: convert a string
argument to a text node; detach a node argument from its current parent
(which, for a node already placed in the fragment, is the fragment
itself); then `fragment.insertBefore(node, fragment.firstChild)`. -/
def rwStep (a : Arg) (st : Doc × List Item) : Doc × List Item :=
  match a with
  | Arg.str s => (st.1, Item.text s :: st.2)
  | Arg.node id =>
    if Item.elem id ∈ st.2 then
      (st.1, Item.elem id :: st.2.filter (fun it => it ≠ Item.elem id))
    else
      match findParent st.1 id with
      | some p => (removeChild st.1 p id, Item.elem id :: st.2)
      | none => (st.1, Item.elem id :: st.2)

/-- Replace the first occurrence of the element among the children with
the fragment's contents, as `replaceChild(fragment, this)` splices a
document fragment in place. -/
def spliceList (ch : List Item) (e : Nat) (frag : List Item) : List Item :=
  match ch with
  | [] => []
  | it :: rest =>
    if it = Item.elem e then frag ++ rest else it :: spliceList rest e frag

/-- `parent.replaceChild(fragment, this)`: `none` models the
`NotFoundError` the DOM throws when the element is no longer one of the
parent's children. -/
def replaceChildFrag (doc : Doc) (p : Nat) (e : Nat) (frag : List Item) :
    Option Doc :=
  match doc.lookup p with
  | none => none
  | some ch =>
    if Item.elem e ∈ ch then
      some (doc.map (fun en =>
        if en.1 = p then (en.1, spliceList en.2 e frag) else en))
    else none

/-- The backfilled `replaceWith` called on element `e` with `args`:
return unchanged when `e` has no parent, else build the fragment by the
reverse loop and swap it in with one `replaceChild`. -/
def replaceWith (doc : Doc) (e : Nat) (args : List Arg) : Option Doc :=
  match findParent doc e with
  | none => some doc
  | some p =>
    let st := args.foldr rwStep (doc, [])
    replaceChildFrag st.1 p e st.2

/-- Conversion the loop applies to each argument: strings become text
nodes, nodes stay themselves. -/
def convArg : Arg → Item
  | Arg.node id => Item.elem id
  | Arg.str s => Item.text s

/-- Ids of the node (non-string) arguments, in order. -/
def argNodeIds (args : List Arg) : List Nat :=
  args.filterMap (fun a =>
    match a with
    | Arg.node id => some id
    | Arg.str _ => none)

/-- The detachments the loop performs, separated from fragment
building: each node argument is removed from its current parent,
processed in the loop's reverse order. -/
def detachArgs (doc : Doc) (args : List Arg) : Doc :=
  args.foldr
    (fun a d =>
      match a with
      | Arg.str _ => d
      | Arg.node id =>
        match findParent d id with
        | some q => removeChild d q id
        | none => d)
    doc

/-! ## Post-states of the polyfill layer, used by the idempotence
analysis -/

/-- The `matches` slot no longer changes under re-installation: either
it is truthy (the guard skips), or it is the assigned `undefined` and
both vendor-prefixed sources are still absent (the guard fires but
re-assigns the same value). -/
def mstable (ep : Proto) : Prop :=
  truthy ep.matchesSel = true ∨
    (ep.matchesSel = PropVal.undef ∧ ep.msMatchesSelector = false ∧
      ep.webkitMatchesSelector = false)

/-- Every feature `installPolyfills` can install is present, so a
re-installation leaves the window untouched. -/
def insDone (w : Window) : Prop :=
  w.matchMedia = true ∧ w.ShadowRoot = true ∧ w.CustomEvent = true ∧
  w.ResizeObserver = true ∧ w.IntersectionObserver = true ∧
  w.HTMLElementRef ≠ none ∧
  (∃ ep, w.ElementProto = some ep ∧ mstable ep ∧ ep.closest = true) ∧
  (∃ hp, getHProto w = some hp ∧ hp.innerText = true ∧
    hp.containsMember = true ∧ hp.removeMember = true ∧
    hp.replaceWithMember = true ∧ hp.scrollTo = true)

/-! ## Derived definitions used by the polyfill analysis -/

/-- The value the `matches` backfill statement leaves in the slot. -/
def mUpd (ep : Proto) : PropVal :=
  if truthy ep.matchesSel then ep.matchesSel
  else if ep.msMatchesSelector || ep.webkitMatchesSelector then PropVal.fn
  else PropVal.undef

/-- The prototype members read through `HTMLElement.prototype` are
unchanged between two prototypes. -/
def hKeep (q q2 : Proto) : Prop :=
  q2.innerText = q.innerText ∧ q2.containsMember = q.containsMember ∧
  q2.removeMember = q.removeMember ∧
  q2.replaceWithMember = q.replaceWithMember ∧ q2.scrollTo = q.scrollTo

/-- The prototype members read through `Element.prototype` are unchanged
between two prototypes. -/
def eKeep (e e2 : Proto) : Prop :=
  e2.matchesSel = e.matchesSel ∧
  e2.msMatchesSelector = e.msMatchesSelector ∧
  e2.webkitMatchesSelector = e.webkitMatchesSelector ∧
  e2.closest = e.closest

/-- The `hKeep` projection used with the transport lemmas. -/
def hTup (p : Proto) : Bool × Bool × Bool × Bool × Bool :=
  (p.innerText, p.containsMember, p.removeMember, p.replaceWithMember,
    p.scrollTo)

/-- The `eKeep` projection used with the transport lemmas. -/
def eTup (p : Proto) : PropVal × Bool × Bool × Bool :=
  (p.matchesSel, p.msMatchesSelector, p.webkitMatchesSelector, p.closest)

/-- A prototype with every member absent. -/
def bareProto : Proto :=
  { innerText := false, matchesSel := PropVal.absent,
    msMatchesSelector := false, webkitMatchesSelector := false,
    closest := false, containsMember := false, removeMember := false,
    replaceWithMember := false, scrollTo := false, attachShadow := false }

/-- A window with a native `ShadowRoot` and an `Element` class but no
`HTMLElement` class: `installPolyfills` succeeds on it, yet is not
idempotent, because the skipped `innerText` shim applies on the second
run once `polyfillElementAPIs` has aliased `HTMLElement` to `Element`. -/
def shadowOnlyWindow : Window :=
  { matchMedia := false, ShadowRoot := true, CustomEvent := false,
    EventCtor := true, ResizeObserver := false,
    IntersectionObserver := false, ElementProto := some bareProto,
    HTMLElementRef := none }

/-- A window with distinct `HTMLElement` and `Element` classes and an
`Event` class: everything `installPolyfills` needs for idempotence. -/
def ownProtoWindow : Window :=
  { matchMedia := false, ShadowRoot := false, CustomEvent := false,
    EventCtor := true, ResizeObserver := false,
    IntersectionObserver := false, ElementProto := some bareProto,
    HTMLElementRef := some (HRef.own bareProto) }

/-! ## Helper lemmas -/

theorem data_append (a b : String) : (a ++ b).data = a.data ++ b.data := rfl

theorem infix_of_infix_right {α : Type} (a : List α) {m b : List α}
    (h : m <:+: b) : m <:+: a ++ b := by
  obtain ⟨s, t, rfl⟩ := h
  exact ⟨a ++ s, t, by simp⟩

theorem infix_of_infix_left {α : Type} {m a : List α} (h : m <:+: a)
    (b : List α) : m <:+: a ++ b := by
  obtain ⟨s, t, rfl⟩ := h
  exact ⟨s, t ++ b, by simp⟩

theorem listInfixB_iff (needle hay : List Char) :
    listInfixB needle hay = true ↔ needle <:+: hay := by
  induction hay with
  | nil =>
    simp [listInfixB, List.isPrefixOf_iff_prefix]
  | cons c rest ih =>
    simp [listInfixB, List.isPrefixOf_iff_prefix, ih, Bool.or_eq_true]
    exact List.infix_cons_iff.symm

theorem strContains_iff (hay needle : String) :
    strContains hay needle = true ↔ needle.data <:+: hay.data :=
  listInfixB_iff needle.data hay.data

theorem serializeBody_cons (n : BodyNode) (t : List BodyNode) :
    serializeBody (n :: t) = serializeNode n ++ serializeBody t := rfl

theorem serializeNode_infix_serializeBody {n : BodyNode}
    {d : List BodyNode} (hm : n ∈ d) :
    (serializeNode n).data <:+: (serializeBody d).data := by
  induction d with
  | nil => cases hm
  | cons h t ih =>
    rw [serializeBody_cons, data_append]
    rcases List.mem_cons.mp hm with rfl | hm
    · exact infix_of_infix_left (List.infix_rfl) _
    · exact infix_of_infix_right _ (ih hm)

theorem strContains_render_out {d : List BodyNode} {n : BodyNode}
    {sub : String} (hm : n ∈ d)
    (hs : sub.data <:+: (serializeNode n).data) :
    strContains ("<!doctype html>\n" ++ serializeDoc d) sub = true := by
  rw [strContains_iff]
  have h1 : sub.data <:+: (serializeBody d).data :=
    hs.trans (serializeNode_infix_serializeBody hm)
  have h2 : ("<!doctype html>\n" ++ serializeDoc d).data =
      "<!doctype html>\n".data ++ shellHead.data ++
        (serializeBody d).data ++ shellFoot.data := by
    simp [serializeDoc, data_append, List.append_assoc]
  rw [h2]
  rw [List.append_assoc, List.append_assoc]
  exact infix_of_infix_right _
    (infix_of_infix_right _ (infix_of_infix_left h1 _))

/-! ## Claim C4: serving cached assets -/

/-- C4 counterexample: a store key containing a percent-escape
(`/a%41.js`, a legal file name) is in the asset store, yet dispatching
exactly that path yields 404, because the dispatcher percent-decodes
the request before the lookup. -/
theorem c4_counterexample :
    ([("/a%41.js", [104, 105])] : List (String × List Nat)).lookup
        "/a%41.js" = some [104, 105] ∧
    render (fun _ => Except.ok "") (fun _ d => d) ReadyState.complete
        [("/a%41.js", [104, 105])] "/a%41.js" =
      Except.ok { statusCode := 404,
                  contentType := "text/plain; charset=utf-8",
                  body := HttpBody.str "Not Found" } :=
  ⟨rfl, rfl⟩

/-- C4 (amended): for every asset-store key whose decoded, normalized
form is the key itself, dispatching exactly that path returns 200, the
MIME table's entry for the key's extension, and the stored bytes. -/
theorem c4_cached_asset_served (bundler : String → Except String String)
    (exec : String → List BodyNode → List BodyNode) (rs : ReadyState)
    (assets : List (String × List Nat)) (k : String) (bs : List Nat)
    (hself : normalizePath k = Except.ok k)
    (hhit : assets.lookup k = some bs) :
    render bundler exec rs assets k =
      Except.ok { statusCode := 200, contentType := mimeByExt k,
                  body := HttpBody.bytes bs } := by
  unfold render
  rw [hself]
  dsimp only
  rw [hhit]

/-- C4 witness: a concrete `.js` asset served byte-identically with the
`text/javascript` charset-tagged MIME type. -/
theorem c4_witness :
    normalizePath "/assets/app.js" = Except.ok "/assets/app.js" ∧
    ([("/assets/app.js", [104, 105])] : List (String × List Nat)).lookup
        "/assets/app.js" = some [104, 105] ∧
    mimeByExt "/assets/app.js" = "text/javascript; charset=utf-8" ∧
    render (fun _ => Except.ok "") (fun _ d => d) ReadyState.complete
        [("/assets/app.js", [104, 105])] "/assets/app.js" =
      Except.ok { statusCode := 200,
                  contentType := mimeByExt "/assets/app.js",
                  body := HttpBody.bytes [104, 105] } :=
  ⟨rfl, rfl, rfl,
    c4_cached_asset_served _ _ _ _ _ _ rfl rfl⟩

/-! ## Claim C5: rendering failures become opaque 500 responses -/

/-- C5: any exception from the render path is caught at the dispatcher
boundary and turned into the fixed 500 plain-text response, whose body
is a constant carrying no detail of the internal error. -/
theorem c5_errors_become_500 (bundler : String → Except String String)
    (exec : String → List BodyNode → List BodyNode) (rs : ReadyState)
    (assets : List (String × List Nat)) (p e : String)
    (h : render bundler exec rs assets p = Except.error e) :
    handle bundler exec rs assets p =
      { statusCode := 500, contentType := "text/plain; charset=utf-8",
        body := HttpBody.str "Internal Server Error" } := by
  unfold handle controller
  rw [h]

/-- C5 witness: a failing bundler on a page render produces the fixed
500 response. -/
theorem c5_witness :
    render (fun _ => Except.error "esbuild failed") (fun _ d => d)
        ReadyState.complete [] "/" = Except.error "esbuild failed" ∧
    handle (fun _ => Except.error "esbuild failed") (fun _ d => d)
        ReadyState.complete [] "/" =
      { statusCode := 500, contentType := "text/plain; charset=utf-8",
        body := HttpBody.str "Internal Server Error" } :=
  ⟨rfl, c5_errors_become_500 _ _ _ _ _ _ rfl⟩

/-! ## Claim C6: unknown paths answer 404 -/

/-- C6: for every request path whose decoded, normalized form is not an
asset-store key, not the root, and not `.html`-suffixed, the dispatcher
returns 404 with the plain-text body `Not Found` — for every bundler,
executed-bundle behavior and readiness state, since the branch touches
neither. -/
theorem c6_unknown_paths_404 (bundler : String → Except String String)
    (exec : String → List BodyNode → List BodyNode) (rs : ReadyState)
    (assets : List (String × List Nat)) (p u : String)
    (hnorm : normalizePath p = Except.ok u)
    (hmiss : assets.lookup u = none)
    (hroot : u ≠ "/")
    (hhtml : endsWithStr u ".html" = false) :
    render bundler exec rs assets p =
      Except.ok { statusCode := 404,
                  contentType := "text/plain; charset=utf-8",
                  body := HttpBody.str "Not Found" } := by
  unfold render
  rw [hnorm]
  dsimp only
  rw [hmiss]
  dsimp only
  rw [if_neg]
  simp [hroot, hhtml]

/-- C6 witness: a concrete unknown non-HTML path answers 404. -/
theorem c6_witness :
    normalizePath "/missing.txt" = Except.ok "/missing.txt" ∧
    ([("/a.js", [1])] : List (String × List Nat)).lookup "/missing.txt" =
      none ∧
    render (fun _ => Except.ok "") (fun _ d => d) ReadyState.complete
        [("/a.js", [1])] "/missing.txt" =
      Except.ok { statusCode := 404,
                  contentType := "text/plain; charset=utf-8",
                  body := HttpBody.str "Not Found" } :=
  ⟨rfl, rfl,
    c6_unknown_paths_404 _ _ _ _ _ _ rfl rfl (by decide) rfl⟩

/-! ## Claim C10: HTML-eligible paths all render the same page -/

/-- C10: any two request paths that normalize to non-asset HTML-eligible
targets (the root or an `.html` suffix) produce identical dispatcher
results, because `render` always passes the same fixed shell and the
same fixed bundle entry to the pipeline. -/
theorem c10_html_paths_same_response
    (bundler : String → Except String String)
    (exec : String → List BodyNode → List BodyNode) (rs : ReadyState)
    (assets : List (String × List Nat)) (p1 p2 u1 u2 : String)
    (h1 : normalizePath p1 = Except.ok u1)
    (h2 : normalizePath p2 = Except.ok u2)
    (m1 : assets.lookup u1 = none)
    (m2 : assets.lookup u2 = none)
    (e1 : u1 = "/" ∨ endsWithStr u1 ".html" = true)
    (e2 : u2 = "/" ∨ endsWithStr u2 ".html" = true) :
    render bundler exec rs assets p1 = render bundler exec rs assets p2 := by
  unfold render
  rw [h1, h2]
  dsimp only
  rw [m1, m2]
  dsimp only
  rw [if_pos e1, if_pos e2]

/-- C10 witness: the root and `/index.html` produce identical results. -/
theorem c10_witness :
    normalizePath "/" = Except.ok "/" ∧
    normalizePath "/index.html" = Except.ok "/index.html" ∧
    render (fun _ => Except.ok "APP") (fun _ d => d) ReadyState.complete []
        "/" =
      render (fun _ => Except.ok "APP") (fun _ d => d) ReadyState.complete []
        "/index.html" :=
  ⟨rfl, rfl,
    c10_html_paths_same_response _ _ _ _ _ _ _ _ rfl rfl rfl rfl
      (Or.inl rfl) (Or.inr rfl)⟩

/-! ## Claim C3: behavior when the bundle cannot be built -/

/-- C3 counterexample: when the bundler fails, `renderHtml` does not
return any HTML string — the failure propagates out of the pipeline
(there is no catch inside `renderHtml`), so no static shell is
returned. -/
theorem c3_counterexample :
    (renderHtml (fun _ => Except.error "esbuild: could not resolve entry")
        (fun _ d => d) ReadyState.complete mainEntry).2 =
      Except.error "esbuild: could not resolve entry" := rfl

/-- C3 (amended): a bundler failure aborts the render — `render`
propagates the error instead of returning shell HTML, and the
dispatcher boundary converts it into the fixed 500 response. -/
theorem c3_bundle_failure_aborts_render
    (bundler : String → Except String String)
    (exec : String → List BodyNode → List BodyNode) (rs : ReadyState)
    (assets : List (String × List Nat)) (p u err : String)
    (hnorm : normalizePath p = Except.ok u)
    (hmiss : assets.lookup u = none)
    (hel : u = "/" ∨ endsWithStr u ".html" = true)
    (hb : bundler mainEntry = Except.error err) :
    render bundler exec rs assets p = Except.error err ∧
    handle bundler exec rs assets p =
      { statusCode := 500, contentType := "text/plain; charset=utf-8",
        body := HttpBody.str "Internal Server Error" } := by
  have hr : render bundler exec rs assets p = Except.error err := by
    unfold render
    rw [hnorm]
    dsimp only
    rw [hmiss]
    dsimp only
    rw [if_pos hel]
    simp [renderHtml, hb]
  refine ⟨hr, ?_⟩
  unfold handle controller
  rw [hr]

/-- C3 witness: a concrete failing bundler on the root path. -/
theorem c3_witness :
    normalizePath "/" = Except.ok "/" ∧
    render (fun _ => Except.error "boom") (fun _ d => d)
        ReadyState.complete [] "/" = Except.error "boom" ∧
    handle (fun _ => Except.error "boom") (fun _ d => d)
        ReadyState.complete [] "/" =
      { statusCode := 500, contentType := "text/plain; charset=utf-8",
        body := HttpBody.str "Internal Server Error" } :=
  ⟨rfl,
    (c3_bundle_failure_aborts_render (fun _ => Except.error "boom")
      (fun _ d => d) ReadyState.complete [] "/" "/" "boom" rfl rfl
      (Or.inl rfl) rfl).1,
    (c3_bundle_failure_aborts_render (fun _ => Except.error "boom")
      (fun _ d => d) ReadyState.complete [] "/" "/" "boom" rfl rfl
      (Or.inl rfl) rfl).2⟩

/-! ## Claim C7: ordering of script append and the readiness wait -/

/-- C7 counterexample: in a concrete run, the script append happens
strictly after the readiness wait in the pipeline's step trace, not
before it as the claim states. -/
theorem c7_counterexample :
    ¬ ((renderHtml (fun _ => Except.ok "IIFE") (fun _ d => d)
          ReadyState.loading mainEntry).1.findIdx isAppendScript <
       (renderHtml (fun _ => Except.ok "IIFE") (fun _ d => d)
          ReadyState.loading mainEntry).1.findIdx isAwaitReadiness) := by
  decide

/-- C7 (amended): in every run of the pipeline the readiness wait comes
strictly before the bootstrap script append, and the wait resolves
immediately exactly when the document's `readyState` is already
`interactive` or `complete`. -/
theorem c7_wait_precedes_append (bundler : String → Except String String)
    (exec : String → List BodyNode → List BodyNode) (rs : ReadyState)
    (entry : String) :
    (renderHtml bundler exec rs entry).1.findIdx isAwaitReadiness <
      (renderHtml bundler exec rs entry).1.findIdx isAppendScript ∧
    readyWait ReadyState.interactive = WaitMode.immediate ∧
    readyWait ReadyState.complete = WaitMode.immediate ∧
    readyWait ReadyState.loading = WaitMode.listenForContentLoaded := by
  refine ⟨?_, rfl, rfl, rfl⟩
  rcases h : bundler entry with e | code <;>
    simp [renderHtml, h, List.findIdx, List.findIdx.go, isAwaitReadiness,
      isAppendScript]

/-! ## Claim C1: the loader rewrite -/

set_option maxRecDepth 4000 in
/-- C1 counterexample: a concrete render in which the executed
application code creates a script element with the resolvable source
URL `/assets/app.js`; the returned HTML still contains the injected
bootstrap bundle text verbatim and contains no module-type loader at
all, contradicting the claimed rewrite. -/
theorem c1_counterexample :
    (renderHtml (fun _ => Except.ok "BOOTPAYLOAD")
        (fun _ d => d ++ [BodyNode.scriptSrc "/assets/app.js"])
        ReadyState.complete mainEntry).2 =
      Except.ok ("<!doctype html>\n" ++ shellHead ++
        "<script type=\"text/javascript\">BOOTPAYLOAD</script>" ++
        "<script src=\"/assets/app.js\"></script>" ++ shellFoot) ∧
    strContains ("<!doctype html>\n" ++ shellHead ++
        "<script type=\"text/javascript\">BOOTPAYLOAD</script>" ++
        "<script src=\"/assets/app.js\"></script>" ++ shellFoot)
      "BOOTPAYLOAD" = true ∧
    strContains ("<!doctype html>\n" ++ shellHead ++
        "<script type=\"text/javascript\">BOOTPAYLOAD</script>" ++
        "<script src=\"/assets/app.js\"></script>" ++ shellFoot)
      "module" = false := by
  refine ⟨rfl, by decide, by decide⟩

/-- C1 (amended): the pipeline performs no loader rewrite at all: the
returned HTML is the doctype plus the serialized document, in which an
application-created script element with source URL `X` appears as plain
unrewritten markup referencing `X`, and the injected bootstrap script's
literal bundle text is still present whenever the executed code left the
bootstrap node in the document. -/
theorem c1_no_loader_rewrite (bundler : String → Except String String)
    (exec : String → List BodyNode → List BodyNode) (rs : ReadyState)
    (entry code X : String)
    (hb : bundler entry = Except.ok code)
    (hkeep : BodyNode.scriptInline code ∈
      exec code (shellBody ++ [BodyNode.scriptInline code]))
    (hx : BodyNode.scriptSrc X ∈
      exec code (shellBody ++ [BodyNode.scriptInline code])) :
    (renderHtml bundler exec rs entry).2 =
      Except.ok ("<!doctype html>\n" ++
        serializeDoc (exec code (shellBody ++ [BodyNode.scriptInline code]))) ∧
    strContains ("<!doctype html>\n" ++
        serializeDoc (exec code (shellBody ++ [BodyNode.scriptInline code])))
      ("<script src=\"" ++ X ++ "\"></script>") = true ∧
    strContains ("<!doctype html>\n" ++
        serializeDoc (exec code (shellBody ++ [BodyNode.scriptInline code])))
      code = true := by
  refine ⟨by simp [renderHtml, hb], ?_, ?_⟩
  · exact strContains_render_out hx List.infix_rfl
  · refine strContains_render_out hkeep ?_
    show code.data <:+:
      ("<script type=\"text/javascript\">" ++ code ++ "</script>").data
    rw [data_append, data_append]
    exact infix_of_infix_left
      (infix_of_infix_right _ List.infix_rfl) _

set_option maxRecDepth 4000 in
/-- C1 witness: a concrete bundle and application script URL. -/
theorem c1_witness :
    ((fun _ : String => Except.ok "BW") mainEntry =
      (Except.ok "BW" : Except String String)) ∧
    (BodyNode.scriptInline "BW" ∈
      (shellBody ++ [BodyNode.scriptInline "BW"]) ++
        [BodyNode.scriptSrc "/w.js"]) ∧
    strContains ("<!doctype html>\n" ++
        serializeDoc ((shellBody ++ [BodyNode.scriptInline "BW"]) ++
          [BodyNode.scriptSrc "/w.js"]))
      ("<script src=\"" ++ "/w.js" ++ "\"></script>") = true ∧
    strContains ("<!doctype html>\n" ++
        serializeDoc ((shellBody ++ [BodyNode.scriptInline "BW"]) ++
          [BodyNode.scriptSrc "/w.js"]))
      "BW" = true :=
  ⟨rfl, by decide,
    (c1_no_loader_rewrite (fun _ => Except.ok "BW")
      (fun _ d => d ++ [BodyNode.scriptSrc "/w.js"]) ReadyState.complete
      mainEntry "BW" "/w.js" rfl (by decide) (by decide)).2.1,
    (c1_no_loader_rewrite (fun _ => Except.ok "BW")
      (fun _ d => d ++ [BodyNode.scriptSrc "/w.js"]) ReadyState.complete
      mainEntry "BW" "/w.js" rfl (by decide) (by decide)).2.2⟩

/-! ## Polyfill layer lemmas and claims C2, C8 -/

/-! ## Polyfill layer lemmas -/

theorem pseq_false (x : Window) (f : Window → PResult) :
    pseq { thrown := false, win := x } f = f x := rfl

theorem pseq_true (x : Window) (f : Window → PResult) :
    pseq { thrown := true, win := x } f = { thrown := true, win := x } := rfl

theorem setHProto_matchMedia (w : Window) (p : Proto) :
    (setHProto w p).matchMedia = w.matchMedia := by
  unfold setHProto; split <;> rfl

theorem setHProto_ShadowRoot (w : Window) (p : Proto) :
    (setHProto w p).ShadowRoot = w.ShadowRoot := by
  unfold setHProto; split <;> rfl

theorem setHProto_CustomEvent (w : Window) (p : Proto) :
    (setHProto w p).CustomEvent = w.CustomEvent := by
  unfold setHProto; split <;> rfl

theorem setHProto_EventCtor (w : Window) (p : Proto) :
    (setHProto w p).EventCtor = w.EventCtor := by
  unfold setHProto; split <;> rfl

theorem setHProto_ResizeObserver (w : Window) (p : Proto) :
    (setHProto w p).ResizeObserver = w.ResizeObserver := by
  unfold setHProto; split <;> rfl

theorem setHProto_IntersectionObserver (w : Window) (p : Proto) :
    (setHProto w p).IntersectionObserver = w.IntersectionObserver := by
  unfold setHProto; split <;> rfl

theorem setHProto_href_none (w : Window) (p : Proto) :
    ((setHProto w p).HTMLElementRef = none) ↔ (w.HTMLElementRef = none) := by
  unfold setHProto; split <;> simp_all

theorem setHProto_EP_ne_none (w : Window) (p : Proto)
    (h : w.ElementProto ≠ none) : (setHProto w p).ElementProto ≠ none := by
  unfold setHProto; split <;> simp_all

theorem getHProto_setHProto (w : Window) (p q : Proto)
    (h : getHProto w = some q) : getHProto (setHProto w p) = some p := by
  unfold getHProto setHProto at *
  cases hr : w.HTMLElementRef with
  | none => rw [hr] at h; cases h
  | some hr2 =>
    cases hr2 with
    | own r => simp
    | aliasElement => simp

theorem setHProto_self {w : Window} {p : Proto}
    (h : getHProto w = some p) : setHProto w p = w := by
  unfold getHProto at h
  unfold setHProto
  cases hr : w.HTMLElementRef with
  | none => rfl
  | some hr2 =>
    cases hr2 with
    | own r =>
      rw [hr] at h
      cases w
      simp_all
    | aliasElement =>
      rw [hr] at h
      cases w
      simp_all

theorem setEProto_self {w : Window} {p : Proto}
    (h : w.ElementProto = some p) : setEProto w p = w := by
  unfold setEProto
  cases w
  simp_all

/-- Canonical form of `polyfillMatchMedia`. -/
theorem pmm_eq (w : Window) :
    polyfillMatchMedia w =
      { thrown := false, win := { w with matchMedia := true } } := by
  cases w
  unfold polyfillMatchMedia
  dsimp only
  split <;> simp_all

/-- `polyfillInnerText` skips when there is no reachable prototype. -/
theorem pit_none {w : Window} (h : getHProto w = none) :
    polyfillInnerText w = { thrown := false, win := w } := by
  unfold polyfillInnerText
  rw [h]

/-- Canonical form of `polyfillInnerText` on a reachable prototype. -/
theorem pit_some {w : Window} {p : Proto} (h : getHProto w = some p) :
    polyfillInnerText w =
      { thrown := false,
        win := setHProto w { p with innerText := true } } := by
  unfold polyfillInnerText
  rw [h]
  dsimp only
  split
  · have he : ({ p with innerText := true } : Proto) = p := by
      cases p; simp_all
    rw [he, setHProto_self h]
  · rfl

/-- `polyfillShadowDOM` skips when `ShadowRoot` is present. -/
theorem psd_skip {w : Window} (h : w.ShadowRoot = true) :
    polyfillShadowDOM w = { thrown := false, win := w } := by
  unfold polyfillShadowDOM
  rw [h]
  rfl

/-- Canonical form of `polyfillShadowDOM` when it installs. -/
theorem psd_inst {w : Window} {p : Proto} (h : w.ShadowRoot = false)
    (hp : getHProto w = some p) :
    polyfillShadowDOM w =
      { thrown := false,
        win := setHProto { w with ShadowRoot := true }
          { p with attachShadow := true } } := by
  unfold polyfillShadowDOM
  rw [h]
  dsimp only
  have hg : getHProto { w with ShadowRoot := true } = some p := hp
  rw [hg]
  rfl

/-- `polyfillShadowDOM` throws when both `ShadowRoot` and the
`HTMLElement` prototype are missing. -/
theorem psd_throw {w : Window} (h : w.ShadowRoot = false)
    (hp : getHProto w = none) :
    polyfillShadowDOM w =
      { thrown := true, win := { w with ShadowRoot := true } } := by
  unfold polyfillShadowDOM
  rw [h]
  dsimp only
  have hg : getHProto { w with ShadowRoot := true } = none := hp
  rw [hg]
  rfl

/-- Canonical form of `polyfillCustomEvent` when a prerequisite holds. -/
theorem pce_eq {w : Window} (h : w.CustomEvent = true ∨ w.EventCtor = true) :
    polyfillCustomEvent w =
      { thrown := false, win := { w with CustomEvent := true } } := by
  unfold polyfillCustomEvent
  cases hc : w.CustomEvent with
  | true =>
    dsimp only
    cases w
    simp_all
  | false =>
    have he : w.EventCtor = true := by
      rcases h with h | h
      · rw [hc] at h; exact absurd h (by simp)
      · exact h
    dsimp only
    simp [he]

theorem pma_skip {w : Window} (hH : w.HTMLElementRef ≠ none) :
    peaAliasStep w = w := by
  unfold peaAliasStep
  rw [if_neg hH]

theorem pma_alias {w : Window} {ep : Proto} (hH : w.HTMLElementRef = none)
    (hE : w.ElementProto = some ep) :
    peaAliasStep w = { w with HTMLElementRef := some HRef.aliasElement } := by
  unfold peaAliasStep
  rw [if_pos hH, hE]

/-- Canonical form of the `matches` backfill statement. -/
theorem pms_eq {w : Window} {ep : Proto} (hE : w.ElementProto = some ep) :
    peaMatchesStep w =
      { thrown := false,
        win := setEProto w { ep with matchesSel := mUpd ep } } := by
  unfold peaMatchesStep mUpd
  rw [hE]
  dsimp only
  cases ht : truthy ep.matchesSel with
  | true =>
    simp only [ht, if_true]
    have h1 : ({ ep with matchesSel := ep.matchesSel } : Proto) = ep := rfl
    rw [h1, setEProto_self hE]
  | false =>
    simp only [ht, Bool.false_eq_true, if_false]

/-- Canonical form of the `closest` backfill statement. -/
theorem pcl_eq {w : Window} {ep : Proto} (hE : w.ElementProto = some ep) :
    peaClosestStep w =
      { thrown := false, win := setEProto w { ep with closest := true } } := by
  unfold peaClosestStep
  rw [hE]
  dsimp only
  cases hc : ep.closest with
  | true =>
    simp only [hc, if_true]
    have h1 : ({ ep with closest := true } : Proto) = ep := by
      cases ep; simp_all
    rw [h1, setEProto_self hE]
  | false => simp only [hc, Bool.false_eq_true, if_false]

/-- Canonical form of the `contains` backfill statement. -/
theorem pcon_eq {w : Window} {p : Proto} (hp : getHProto w = some p) :
    peaContainsStep w =
      { thrown := false,
        win := setHProto w { p with containsMember := true } } := by
  unfold peaContainsStep
  rw [hp]
  dsimp only
  cases hc : p.containsMember with
  | true =>
    simp only [hc, if_true]
    have h1 : ({ p with containsMember := true } : Proto) = p := by
      cases p; simp_all
    rw [h1, setHProto_self hp]
  | false => simp only [hc, Bool.false_eq_true, if_false]

/-- Canonical form of the `remove` backfill statement. -/
theorem prem_eq {w : Window} {p : Proto} (hp : getHProto w = some p) :
    peaRemoveStep w =
      { thrown := false,
        win := setHProto w { p with removeMember := true } } := by
  unfold peaRemoveStep
  rw [hp]
  dsimp only
  cases hc : p.removeMember with
  | true =>
    simp only [hc, if_true]
    have h1 : ({ p with removeMember := true } : Proto) = p := by
      cases p; simp_all
    rw [h1, setHProto_self hp]
  | false => simp only [hc, Bool.false_eq_true, if_false]

/-- Canonical form of the `replaceWith` backfill statement. -/
theorem prw_eq {w : Window} {p : Proto} (hp : getHProto w = some p) :
    peaReplaceWithStep w =
      { thrown := false,
        win := setHProto w { p with replaceWithMember := true } } := by
  unfold peaReplaceWithStep
  rw [hp]
  dsimp only
  cases hc : p.replaceWithMember with
  | true =>
    simp only [hc, if_true]
    have h1 : ({ p with replaceWithMember := true } : Proto) = p := by
      cases p; simp_all
    rw [h1, setHProto_self hp]
  | false => simp only [hc, Bool.false_eq_true, if_false]

/-- Canonical form of `polyfillDOMUtils` on a reachable prototype. -/
theorem pdu_eq {w : Window} {p : Proto} (hp : getHProto w = some p) :
    polyfillDOMUtils w =
      { thrown := false,
        win := { setHProto w { p with scrollTo := true } with
                 ResizeObserver := true, IntersectionObserver := true } } := by
  unfold polyfillDOMUtils
  rw [hp]
  dsimp only
  cases hsc : p.scrollTo with
  | true =>
    have h1 : ({ p with scrollTo := true } : Proto) = p := by
      cases p; simp_all
    rw [h1, setHProto_self hp]
    simp only [hsc, if_true]
    cases w with
    | mk a b c d e f g h => cases e <;> cases f <;> simp_all
  | false =>
    simp only [hsc, Bool.false_eq_true, if_false]
    generalize setHProto w { p with scrollTo := true } = v
    cases v with
    | mk a b c d e f g h => cases e <;> cases f <;> simp_all

theorem setEProto_EP (w : Window) (p : Proto) :
    (setEProto w p).ElementProto = some p := rfl

theorem getHProto_ne_none_href {w : Window} {p : Proto}
    (h : getHProto w = some p) : w.HTMLElementRef ≠ none := by
  unfold getHProto at h
  intro hn
  rw [hn] at h
  cases h

theorem getHProto_none_href {w : Window} {ep : Proto}
    (h : getHProto w = none) (hE : w.ElementProto = some ep) :
    w.HTMLElementRef = none := by
  unfold getHProto at h
  cases hr : w.HTMLElementRef with
  | none => rfl
  | some hr2 =>
    cases hr2 with
    | own r => rw [hr] at h; cases h
    | aliasElement => rw [hr] at h; rw [hE] at h; cases h

/-- A member read through `HTMLElement.prototype` after a write through
`Element.prototype`: unchanged for a distinct prototype, and equal to
the written object's member when the two prototypes are the same
object — in both cases determined by the member values written. -/
theorem getHProto_setEProto_field {α : Type} (w : Window) (p q ep : Proto)
    (f : Proto → α) (hq : getHProto w = some q)
    (hE : w.ElementProto = some ep) (hf : f p = f ep) :
    ∃ r, getHProto (setEProto w p) = some r ∧ f r = f q := by
  unfold getHProto at hq ⊢
  unfold setEProto
  cases hr : w.HTMLElementRef with
  | none => rw [hr] at hq; cases hq
  | some hr2 =>
    cases hr2 with
    | own r =>
      rw [hr] at hq
      exact ⟨r, rfl, by cases hq; rfl⟩
    | aliasElement =>
      rw [hr] at hq
      rw [hE] at hq
      cases hq
      exact ⟨p, rfl, hf⟩

/-- A member read through `Element.prototype` after a write through
`HTMLElement.prototype`: symmetric to the previous lemma. -/
theorem eproto_setHProto_field {α : Type} (w : Window) (p q ep : Proto)
    (f : Proto → α) (hq : getHProto w = some q)
    (hE : w.ElementProto = some ep) (hf : f p = f q) :
    ∃ e2, (setHProto w p).ElementProto = some e2 ∧ f e2 = f ep := by
  unfold getHProto at hq
  unfold setHProto
  cases hr : w.HTMLElementRef with
  | none => rw [hr] at hq; cases hq
  | some hr2 =>
    cases hr2 with
    | own r => exact ⟨ep, hE, rfl⟩
    | aliasElement =>
      rw [hr] at hq
      rw [hE] at hq
      cases hq
      exact ⟨p, rfl, hf⟩

theorem setEProto_matchMedia (w : Window) (p : Proto) :
    (setEProto w p).matchMedia = w.matchMedia := rfl

theorem setEProto_ShadowRoot (w : Window) (p : Proto) :
    (setEProto w p).ShadowRoot = w.ShadowRoot := rfl

theorem setEProto_CustomEvent (w : Window) (p : Proto) :
    (setEProto w p).CustomEvent = w.CustomEvent := rfl

theorem setEProto_EventCtor (w : Window) (p : Proto) :
    (setEProto w p).EventCtor = w.EventCtor := rfl

theorem setEProto_href (w : Window) (p : Proto) :
    (setEProto w p).HTMLElementRef = w.HTMLElementRef := rfl

/-- Re-running the `matches` backfill on its own output assigns the
value the slot already has. -/
theorem mstable_mUpd {ep ep2 : Proto} (h1 : ep2.matchesSel = mUpd ep)
    (h2 : ep2.msMatchesSelector = ep.msMatchesSelector)
    (h3 : ep2.webkitMatchesSelector = ep.webkitMatchesSelector) :
    mUpd ep2 = ep2.matchesSel := by
  unfold mUpd at h1 ⊢
  cases ht : truthy ep.matchesSel with
  | true =>
    rw [ht] at h1
    simp only [if_true] at h1
    rw [h1, ht]
    simp
  | false =>
    rw [ht] at h1
    simp only [Bool.false_eq_true, if_false] at h1
    cases hv : ep.msMatchesSelector || ep.webkitMatchesSelector with
    | true =>
      rw [hv] at h1
      simp only [if_true] at h1
      rw [h1]
      simp [truthy]
    | false =>
      rw [hv] at h1
      simp only [Bool.false_eq_true, if_false] at h1
      rw [h1]
      simp only [truthy, Bool.false_eq_true, if_false]
      rw [h2, h3, hv]
      simp

theorem hKeep_rfl (q : Proto) : hKeep q q := ⟨rfl, rfl, rfl, rfl, rfl⟩

theorem eKeep_rfl (e : Proto) : eKeep e e := ⟨rfl, rfl, rfl, rfl⟩

theorem hKeep_trans {a b c : Proto} (h1 : hKeep a b) (h2 : hKeep b c) :
    hKeep a c := by
  obtain ⟨x1, x2, x3, x4, x5⟩ := h1
  obtain ⟨y1, y2, y3, y4, y5⟩ := h2
  exact ⟨y1.trans x1, y2.trans x2, y3.trans x3, y4.trans x4, y5.trans x5⟩

theorem eKeep_trans {a b c : Proto} (h1 : eKeep a b) (h2 : eKeep b c) :
    eKeep a c := by
  obtain ⟨x1, x2, x3, x4⟩ := h1
  obtain ⟨y1, y2, y3, y4⟩ := h2
  exact ⟨y1.trans x1, y2.trans x2, y3.trans x3, y4.trans x4⟩

theorem hKeep_of_tup {q q2 : Proto} (h : hTup q2 = hTup q) : hKeep q q2 := by
  unfold hTup at h
  simp only [Prod.mk.injEq] at h
  exact ⟨h.1, h.2.1, h.2.2.1, h.2.2.2.1, h.2.2.2.2⟩

theorem eKeep_of_tup {e e2 : Proto} (h : eTup e2 = eTup e) : eKeep e e2 := by
  unfold eTup at h
  simp only [Prod.mk.injEq] at h
  exact ⟨h.1, h.2.1, h.2.2.1, h.2.2.2⟩

theorem setE_pack (w : Window) (ep q p2 : Proto)
    (hE : w.ElementProto = some ep) (hq : getHProto w = some q)
    (hf : hTup p2 = hTup ep) :
    ∃ q2, getHProto (setEProto w p2) = some q2 ∧ hKeep q q2 := by
  obtain ⟨q2, h1, h2⟩ := getHProto_setEProto_field w p2 q ep hTup hq hE hf
  exact ⟨q2, h1, hKeep_of_tup h2⟩

theorem setH_pack (w : Window) (ep q p2 : Proto)
    (hE : w.ElementProto = some ep) (hq : getHProto w = some q)
    (hf : eTup p2 = eTup q) :
    ∃ e2, (setHProto w p2).ElementProto = some e2 ∧ eKeep ep e2 := by
  obtain ⟨e2, h1, h2⟩ := eproto_setHProto_field w p2 q ep eTup hq hE hf
  exact ⟨e2, h1, eKeep_of_tup h2⟩

/-- Step summary for the `matches` backfill. -/
theorem pms_pack (w : Window) (ep q : Proto)
    (hE : w.ElementProto = some ep) (hq : getHProto w = some q) :
    ∃ v e2 q2, peaMatchesStep w = { thrown := false, win := v } ∧
      v.ElementProto = some e2 ∧ getHProto v = some q2 ∧ hKeep q q2 ∧
      e2.matchesSel = mUpd ep ∧
      e2.msMatchesSelector = ep.msMatchesSelector ∧
      e2.webkitMatchesSelector = ep.webkitMatchesSelector ∧
      e2.closest = ep.closest ∧
      v.matchMedia = w.matchMedia ∧ v.ShadowRoot = w.ShadowRoot ∧
      v.CustomEvent = w.CustomEvent ∧ v.EventCtor = w.EventCtor ∧
      v.ResizeObserver = w.ResizeObserver ∧
      v.IntersectionObserver = w.IntersectionObserver ∧
      ((v.HTMLElementRef = none) ↔ (w.HTMLElementRef = none)) := by
  obtain ⟨q2, hq2, hk⟩ :=
    setE_pack w ep q { ep with matchesSel := mUpd ep } hE hq rfl
  exact ⟨_, _, q2, pms_eq hE, rfl, hq2, hk, rfl, rfl, rfl, rfl, rfl, rfl,
    rfl, rfl, rfl, rfl, Iff.rfl⟩

/-- Step summary for the `closest` backfill. -/
theorem pcl_pack (w : Window) (ep q : Proto)
    (hE : w.ElementProto = some ep) (hq : getHProto w = some q) :
    ∃ v e2 q2, peaClosestStep w = { thrown := false, win := v } ∧
      v.ElementProto = some e2 ∧ getHProto v = some q2 ∧ hKeep q q2 ∧
      e2.closest = true ∧ e2.matchesSel = ep.matchesSel ∧
      e2.msMatchesSelector = ep.msMatchesSelector ∧
      e2.webkitMatchesSelector = ep.webkitMatchesSelector ∧
      v.matchMedia = w.matchMedia ∧ v.ShadowRoot = w.ShadowRoot ∧
      v.CustomEvent = w.CustomEvent ∧ v.EventCtor = w.EventCtor ∧
      v.ResizeObserver = w.ResizeObserver ∧
      v.IntersectionObserver = w.IntersectionObserver ∧
      ((v.HTMLElementRef = none) ↔ (w.HTMLElementRef = none)) := by
  obtain ⟨q2, hq2, hk⟩ :=
    setE_pack w ep q { ep with closest := true } hE hq rfl
  exact ⟨_, _, q2, pcl_eq hE, rfl, hq2, hk, rfl, rfl, rfl, rfl, rfl, rfl,
    rfl, rfl, rfl, rfl, Iff.rfl⟩

/-- Step summary for the `contains` backfill. -/
theorem pcon_pack (w : Window) (ep q : Proto)
    (hE : w.ElementProto = some ep) (hq : getHProto w = some q) :
    ∃ v e2 q2, peaContainsStep w = { thrown := false, win := v } ∧
      v.ElementProto = some e2 ∧ getHProto v = some q2 ∧
      q2.containsMember = true ∧ q2.innerText = q.innerText ∧
      q2.removeMember = q.removeMember ∧
      q2.replaceWithMember = q.replaceWithMember ∧
      q2.scrollTo = q.scrollTo ∧ eKeep ep e2 ∧
      v.matchMedia = w.matchMedia ∧ v.ShadowRoot = w.ShadowRoot ∧
      v.CustomEvent = w.CustomEvent ∧ v.EventCtor = w.EventCtor ∧
      v.ResizeObserver = w.ResizeObserver ∧
      v.IntersectionObserver = w.IntersectionObserver ∧
      ((v.HTMLElementRef = none) ↔ (w.HTMLElementRef = none)) := by
  obtain ⟨e2, he2, hek⟩ :=
    setH_pack w ep q { q with containsMember := true } hE hq rfl
  exact ⟨_, e2, _, pcon_eq hq, he2,
    getHProto_setHProto w { q with containsMember := true } q hq,
    rfl, rfl, rfl, rfl, rfl, hek,
    setHProto_matchMedia _ _, setHProto_ShadowRoot _ _,
    setHProto_CustomEvent _ _, setHProto_EventCtor _ _,
    setHProto_ResizeObserver _ _, setHProto_IntersectionObserver _ _,
    setHProto_href_none _ _⟩

/-- Step summary for the `remove` backfill. -/
theorem prem_pack (w : Window) (ep q : Proto)
    (hE : w.ElementProto = some ep) (hq : getHProto w = some q) :
    ∃ v e2 q2, peaRemoveStep w = { thrown := false, win := v } ∧
      v.ElementProto = some e2 ∧ getHProto v = some q2 ∧
      q2.removeMember = true ∧ q2.innerText = q.innerText ∧
      q2.containsMember = q.containsMember ∧
      q2.replaceWithMember = q.replaceWithMember ∧
      q2.scrollTo = q.scrollTo ∧ eKeep ep e2 ∧
      v.matchMedia = w.matchMedia ∧ v.ShadowRoot = w.ShadowRoot ∧
      v.CustomEvent = w.CustomEvent ∧ v.EventCtor = w.EventCtor ∧
      v.ResizeObserver = w.ResizeObserver ∧
      v.IntersectionObserver = w.IntersectionObserver ∧
      ((v.HTMLElementRef = none) ↔ (w.HTMLElementRef = none)) := by
  obtain ⟨e2, he2, hek⟩ :=
    setH_pack w ep q { q with removeMember := true } hE hq rfl
  exact ⟨_, e2, _, prem_eq hq, he2,
    getHProto_setHProto w { q with removeMember := true } q hq,
    rfl, rfl, rfl, rfl, rfl, hek,
    setHProto_matchMedia _ _, setHProto_ShadowRoot _ _,
    setHProto_CustomEvent _ _, setHProto_EventCtor _ _,
    setHProto_ResizeObserver _ _, setHProto_IntersectionObserver _ _,
    setHProto_href_none _ _⟩

/-- Step summary for the `replaceWith` backfill. -/
theorem prw_pack (w : Window) (ep q : Proto)
    (hE : w.ElementProto = some ep) (hq : getHProto w = some q) :
    ∃ v e2 q2, peaReplaceWithStep w = { thrown := false, win := v } ∧
      v.ElementProto = some e2 ∧ getHProto v = some q2 ∧
      q2.replaceWithMember = true ∧ q2.innerText = q.innerText ∧
      q2.containsMember = q.containsMember ∧
      q2.removeMember = q.removeMember ∧
      q2.scrollTo = q.scrollTo ∧ eKeep ep e2 ∧
      v.matchMedia = w.matchMedia ∧ v.ShadowRoot = w.ShadowRoot ∧
      v.CustomEvent = w.CustomEvent ∧ v.EventCtor = w.EventCtor ∧
      v.ResizeObserver = w.ResizeObserver ∧
      v.IntersectionObserver = w.IntersectionObserver ∧
      ((v.HTMLElementRef = none) ↔ (w.HTMLElementRef = none)) := by
  obtain ⟨e2, he2, hek⟩ :=
    setH_pack w ep q { q with replaceWithMember := true } hE hq rfl
  exact ⟨_, e2, _, prw_eq hq, he2,
    getHProto_setHProto w { q with replaceWithMember := true } q hq,
    rfl, rfl, rfl, rfl, rfl, hek,
    setHProto_matchMedia _ _, setHProto_ShadowRoot _ _,
    setHProto_CustomEvent _ _, setHProto_EventCtor _ _,
    setHProto_ResizeObserver _ _, setHProto_IntersectionObserver _ _,
    setHProto_href_none _ _⟩

/-- Step summary for `polyfillCustomEvent`. -/
theorem pce_pack (w : Window) (ep q : Proto)
    (hE : w.ElementProto = some ep) (hq : getHProto w = some q)
    (hC : w.CustomEvent = true ∨ w.EventCtor = true) :
    ∃ v, polyfillCustomEvent w = { thrown := false, win := v } ∧
      v.ElementProto = some ep ∧ getHProto v = some q ∧
      v.CustomEvent = true ∧
      v.matchMedia = w.matchMedia ∧ v.ShadowRoot = w.ShadowRoot ∧
      v.EventCtor = w.EventCtor ∧
      v.ResizeObserver = w.ResizeObserver ∧
      v.IntersectionObserver = w.IntersectionObserver ∧
      ((v.HTMLElementRef = none) ↔ (w.HTMLElementRef = none)) := by
  exact ⟨_, pce_eq hC, hE, hq, rfl, rfl, rfl, rfl, rfl, rfl, Iff.rfl⟩

/-- Step summary for `polyfillDOMUtils`. -/
theorem pdu_pack (w : Window) (ep q : Proto)
    (hE : w.ElementProto = some ep) (hq : getHProto w = some q) :
    ∃ v e2 q2, polyfillDOMUtils w = { thrown := false, win := v } ∧
      v.ElementProto = some e2 ∧ getHProto v = some q2 ∧
      q2.scrollTo = true ∧ q2.innerText = q.innerText ∧
      q2.containsMember = q.containsMember ∧
      q2.removeMember = q.removeMember ∧
      q2.replaceWithMember = q.replaceWithMember ∧ eKeep ep e2 ∧
      v.matchMedia = w.matchMedia ∧ v.ShadowRoot = w.ShadowRoot ∧
      v.CustomEvent = w.CustomEvent ∧ v.EventCtor = w.EventCtor ∧
      v.ResizeObserver = true ∧ v.IntersectionObserver = true ∧
      ((v.HTMLElementRef = none) ↔ (w.HTMLElementRef = none)) := by
  obtain ⟨e2, he2, hek⟩ :=
    setH_pack w ep q { q with scrollTo := true } hE hq rfl
  exact ⟨_, e2, _, pdu_eq hq, he2,
    getHProto_setHProto w { q with scrollTo := true } q hq,
    rfl, rfl, rfl, rfl, rfl, hek,
    setHProto_matchMedia _ _, setHProto_ShadowRoot _ _,
    setHProto_CustomEvent _ _, setHProto_EventCtor _ _,
    rfl, rfl, setHProto_href_none _ _⟩

/-- Step summary for `polyfillInnerText` on a reachable prototype. -/
theorem pit_pack (w : Window) (ep q : Proto)
    (hE : w.ElementProto = some ep) (hq : getHProto w = some q) :
    ∃ v e2 q2, polyfillInnerText w = { thrown := false, win := v } ∧
      v.ElementProto = some e2 ∧ getHProto v = some q2 ∧
      q2.innerText = true ∧ q2.containsMember = q.containsMember ∧
      q2.removeMember = q.removeMember ∧
      q2.replaceWithMember = q.replaceWithMember ∧
      q2.scrollTo = q.scrollTo ∧ eKeep ep e2 ∧
      v.matchMedia = w.matchMedia ∧ v.ShadowRoot = w.ShadowRoot ∧
      v.CustomEvent = w.CustomEvent ∧ v.EventCtor = w.EventCtor ∧
      v.ResizeObserver = w.ResizeObserver ∧
      v.IntersectionObserver = w.IntersectionObserver ∧
      ((v.HTMLElementRef = none) ↔ (w.HTMLElementRef = none)) := by
  obtain ⟨e2, he2, hek⟩ :=
    setH_pack w ep q { q with innerText := true } hE hq rfl
  exact ⟨_, e2, _, pit_some hq, he2,
    getHProto_setHProto w { q with innerText := true } q hq,
    rfl, rfl, rfl, rfl, rfl, hek,
    setHProto_matchMedia _ _, setHProto_ShadowRoot _ _,
    setHProto_CustomEvent _ _, setHProto_EventCtor _ _,
    setHProto_ResizeObserver _ _, setHProto_IntersectionObserver _ _,
    setHProto_href_none _ _⟩

/-- Step summary for `polyfillShadowDOM` on a reachable prototype. -/
theorem psd_pack (w : Window) (ep q : Proto)
    (hE : w.ElementProto = some ep) (hq : getHProto w = some q) :
    ∃ v e2 q2, polyfillShadowDOM w = { thrown := false, win := v } ∧
      v.ElementProto = some e2 ∧ getHProto v = some q2 ∧
      v.ShadowRoot = true ∧ hKeep q q2 ∧ eKeep ep e2 ∧
      v.matchMedia = w.matchMedia ∧
      v.CustomEvent = w.CustomEvent ∧ v.EventCtor = w.EventCtor ∧
      v.ResizeObserver = w.ResizeObserver ∧
      v.IntersectionObserver = w.IntersectionObserver ∧
      ((v.HTMLElementRef = none) ↔ (w.HTMLElementRef = none)) := by
  cases hsr : w.ShadowRoot with
  | true =>
    exact ⟨w, ep, q, psd_skip hsr, hE, hq, hsr, hKeep_rfl q, eKeep_rfl ep,
      rfl, rfl, rfl, rfl, rfl, Iff.rfl⟩
  | false =>
    have hq1 : getHProto { w with ShadowRoot := true } = some q := hq
    have hE1 : ({ w with ShadowRoot := true } : Window).ElementProto =
        some ep := hE
    obtain ⟨e2, he2, hek⟩ := setH_pack { w with ShadowRoot := true } ep q
      { q with attachShadow := true } hE1 hq1 rfl
    refine ⟨_, e2, _, psd_inst hsr hq, he2,
      getHProto_setHProto { w with ShadowRoot := true }
        { q with attachShadow := true } q hq1,
      setHProto_ShadowRoot _ _, ?_, hek,
      setHProto_matchMedia _ _,
      setHProto_CustomEvent _ _, setHProto_EventCtor _ _,
      setHProto_ResizeObserver _ _, setHProto_IntersectionObserver _ _,
      setHProto_href_none _ _⟩
    exact ⟨rfl, rfl, rfl, rfl, rfl⟩

/-- Chain summary for the last three shims: given a sane state after
`polyfillShadowDOM`, the rest of `installPolyfills` completes without
throwing and leaves every backfillable feature present. -/
theorem install_tail (w3 : Window) (p3 ep3 : Proto)
    (hq3 : getHProto w3 = some p3) (hE3 : w3.ElementProto = some ep3)
    (hC3 : w3.CustomEvent = true ∨ w3.EventCtor = true) :
    ∃ w' p' ep',
      pseq (pseq (polyfillElementAPIs w3) polyfillCustomEvent)
          polyfillDOMUtils = { thrown := false, win := w' } ∧
      getHProto w' = some p' ∧ w'.ElementProto = some ep' ∧
      p'.innerText = p3.innerText ∧ p'.containsMember = true ∧
      p'.removeMember = true ∧ p'.replaceWithMember = true ∧
      p'.scrollTo = true ∧
      ep'.closest = true ∧ ep'.matchesSel = mUpd ep3 ∧
      ep'.msMatchesSelector = ep3.msMatchesSelector ∧
      ep'.webkitMatchesSelector = ep3.webkitMatchesSelector ∧
      w'.matchMedia = w3.matchMedia ∧ w'.ShadowRoot = w3.ShadowRoot ∧
      w'.CustomEvent = true ∧ w'.ResizeObserver = true ∧
      w'.IntersectionObserver = true ∧
      ((w'.HTMLElementRef = none) ↔ (w3.HTMLElementRef = none)) := by
  obtain ⟨v1, e1, q1, heq1, hEv1, hqv1, hk1, hm1, hms1, hwk1, hcl1,
    fmm1, fsr1, fce1, fev1, fro1, fio1, fhr1⟩ := pms_pack w3 ep3 p3 hE3 hq3
  obtain ⟨v2, e2, q2, heq2, hEv2, hqv2, hk2, hcl2, hm2, hms2, hwk2,
    fmm2, fsr2, fce2, fev2, fro2, fio2, fhr2⟩ := pcl_pack v1 e1 q1 hEv1 hqv1
  obtain ⟨v3, e3, q3, heq3, hEv3, hqv3, hcon3, hin3, hrem3, hrw3, hsc3,
    hek3, fmm3, fsr3, fce3, fev3, fro3, fio3, fhr3⟩ :=
    pcon_pack v2 e2 q2 hEv2 hqv2
  obtain ⟨v4, e4, q4, heq4, hEv4, hqv4, hrem4, hin4, hcon4, hrw4, hsc4,
    hek4, fmm4, fsr4, fce4, fev4, fro4, fio4, fhr4⟩ :=
    prem_pack v3 e3 q3 hEv3 hqv3
  obtain ⟨v5, e5, q5, heq5, hEv5, hqv5, hrw5, hin5, hcon5, hrem5, hsc5,
    hek5, fmm5, fsr5, fce5, fev5, fro5, fio5, fhr5⟩ :=
    prw_pack v4 e4 q4 hEv4 hqv4
  have hC5 : v5.CustomEvent = true ∨ v5.EventCtor = true := by
    rcases hC3 with h | h
    · exact Or.inl (by rw [fce5, fce4, fce3, fce2, fce1]; exact h)
    · exact Or.inr (by rw [fev5, fev4, fev3, fev2, fev1]; exact h)
  obtain ⟨v6, heq6, hEv6, hqv6, hce6, fmm6, fsr6, fev6, fro6, fio6, fhr6⟩ :=
    pce_pack v5 e5 q5 hEv5 hqv5 hC5
  obtain ⟨w', e7, q7, heq7, hEv7, hqv7, hsc7, hin7, hcon7, hrem7, hrw7,
    hek7, fmm7, fsr7, fce7, fev7, fro7, fio7, fhr7⟩ :=
    pdu_pack v6 e5 q5 hEv6 hqv6
  refine ⟨w', q7, e7, ?_, hqv7, hEv7, ?_, ?_, ?_, ?_, hsc7.trans ?_,
    ?_, ?_, ?_, ?_, ?_, ?_, ?_, fro7, fio7, ?_⟩
  · unfold polyfillElementAPIs
    rw [pma_skip (getHProto_ne_none_href hq3), heq1, pseq_false, heq2,
      pseq_false, heq3, pseq_false, heq4, pseq_false, heq5, pseq_false,
      heq6, pseq_false, heq7]
  · rw [hin7, hin5, hin4, hin3, hk2.1, hk1.1]
  · rw [hcon7, hcon5, hcon4]; exact hcon3
  · rw [hrem7, hrem5]; exact hrem4
  · rw [hrw7]; exact hrw5
  · rfl
  · rw [hek7.2.2.2, hek5.2.2.2, hek4.2.2.2, hek3.2.2.2]; exact hcl2
  · rw [hek7.1, hek5.1, hek4.1, hek3.1, hm2]; exact hm1
  · rw [hek7.2.1, hek5.2.1, hek4.2.1, hek3.2.1, hms2]; exact hms1
  · rw [hek7.2.2.1, hek5.2.2.1, hek4.2.2.1, hek3.2.2.1, hwk2]; exact hwk1
  · rw [fmm7, fmm6, fmm5, fmm4, fmm3, fmm2, fmm1]
  · rw [fsr7, fsr6, fsr5, fsr4, fsr3, fsr2, fsr1]
  · rw [fce7]; exact hce6
  · exact fhr7.trans (fhr6.trans (fhr5.trans (fhr4.trans (fhr3.trans
      (fhr2.trans fhr1)))))

/-- First-run summary: on a window exposing both element classes and an
event constructor, `installPolyfills` completes without throwing and its
output has every backfillable feature present. -/
theorem install_strong (w : Window) (p0 ep0 : Proto)
    (hq0 : getHProto w = some p0) (hE0 : w.ElementProto = some ep0)
    (hC : w.CustomEvent = true ∨ w.EventCtor = true) :
    ∃ w' p' ep',
      installPolyfills w = { thrown := false, win := w' } ∧
      getHProto w' = some p' ∧ w'.ElementProto = some ep' ∧
      p'.innerText = true ∧ p'.containsMember = true ∧
      p'.removeMember = true ∧ p'.replaceWithMember = true ∧
      p'.scrollTo = true ∧
      ep'.closest = true ∧ mUpd ep' = ep'.matchesSel ∧
      w'.matchMedia = true ∧ w'.ShadowRoot = true ∧
      w'.CustomEvent = true ∧ w'.ResizeObserver = true ∧
      w'.IntersectionObserver = true := by
  have hq0' : getHProto { w with matchMedia := true } = some p0 := hq0
  have hE0' : ({ w with matchMedia := true } : Window).ElementProto =
      some ep0 := hE0
  obtain ⟨vA, eA, qA, heqA, hEA, hqA, hinA, hconA, hremA, hrwA, hscA,
    hekA, fmmA, fsrA, fceA, fevA, froA, fioA, fhrA⟩ :=
    pit_pack { w with matchMedia := true } ep0 p0 hE0' hq0'
  obtain ⟨vB, eB, qB, heqB, hEB, hqB, hsrB, hkB, hekB, fmmB, fceB, fevB,
    froB, fioB, fhrB⟩ := psd_pack vA eA qA hEA hqA
  have hCB : vB.CustomEvent = true ∨ vB.EventCtor = true := by
    rcases hC with h | h
    · exact Or.inl (by rw [fceB, fceA]; exact h)
    · exact Or.inr (by rw [fevB, fevA]; exact h)
  obtain ⟨w', p', ep', heqT, hq', hE', hin', hcon', hrem', hrw', hsc',
    hcl', hm', hms', hwk', fmm', fsr', fce', fro', fio', fhr'⟩ :=
    install_tail vB qB eB hqB hEB hCB
  refine ⟨w', p', ep', ?_, hq', hE', ?_, hcon', hrem', hrw', hsc', hcl',
    mstable_mUpd hm' hms' hwk', ?_, ?_, fce', fro', fio'⟩
  · unfold installPolyfills
    rw [pmm_eq, pseq_false, heqA, pseq_false, heqB, pseq_false, heqT]
  · rw [hin', hkB.1]; exact hinA
  · rw [fmm', fmmB, fmmA]
  · rw [fsr']; exact hsrB

/-- Re-running `installPolyfills` on a window where every backfillable
feature is already present changes nothing. -/
theorem install_fix (w' : Window) (p' ep' : Proto)
    (hmm : w'.matchMedia = true) (hSR : w'.ShadowRoot = true)
    (hCE : w'.CustomEvent = true) (hRO : w'.ResizeObserver = true)
    (hIObs : w'.IntersectionObserver = true)
    (hH : getHProto w' = some p') (hE : w'.ElementProto = some ep')
    (hin : p'.innerText = true) (hcon : p'.containsMember = true)
    (hrem : p'.removeMember = true) (hrwm : p'.replaceWithMember = true)
    (hsc : p'.scrollTo = true) (hclos : ep'.closest = true)
    (hmst : mUpd ep' = ep'.matchesSel) :
    installPolyfills w' = { thrown := false, win := w' } := by
  have e1 : ({ w' with matchMedia := true } : Window) = w' := by
    cases w'; simp_all
  have e2 : setHProto w' { p' with innerText := true } = w' := by
    have h : ({ p' with innerText := true } : Proto) = p' := by
      cases p'; simp_all
    rw [h]; exact setHProto_self hH
  have e3 : setEProto w' { ep' with matchesSel := mUpd ep' } = w' := by
    rw [hmst]; exact setEProto_self hE
  have e4 : setEProto w' { ep' with closest := true } = w' := by
    have h : ({ ep' with closest := true } : Proto) = ep' := by
      cases ep'; simp_all
    rw [h]; exact setEProto_self hE
  have e5 : setHProto w' { p' with containsMember := true } = w' := by
    have h : ({ p' with containsMember := true } : Proto) = p' := by
      cases p'; simp_all
    rw [h]; exact setHProto_self hH
  have e6 : setHProto w' { p' with removeMember := true } = w' := by
    have h : ({ p' with removeMember := true } : Proto) = p' := by
      cases p'; simp_all
    rw [h]; exact setHProto_self hH
  have e7 : setHProto w' { p' with replaceWithMember := true } = w' := by
    have h : ({ p' with replaceWithMember := true } : Proto) = p' := by
      cases p'; simp_all
    rw [h]; exact setHProto_self hH
  have e8 : ({ w' with CustomEvent := true } : Window) = w' := by
    cases w'; simp_all
  have e9 : setHProto w' { p' with scrollTo := true } = w' := by
    have h : ({ p' with scrollTo := true } : Proto) = p' := by
      cases p'; simp_all
    rw [h]; exact setHProto_self hH
  have e10 : ({ w' with ResizeObserver := true, IntersectionObserver := true } : Window) = w' := by
    cases w'; simp_all
  unfold installPolyfills polyfillElementAPIs
  rw [pmm_eq, e1, pseq_false, pit_some hH, e2, pseq_false, psd_skip hSR,
    pseq_false, pma_skip (getHProto_ne_none_href hH), pms_eq hE, e3,
    pseq_false, pcl_eq hE, e4, pseq_false, pcon_eq hH, e5, pseq_false,
    prem_eq hH, e6, pseq_false, prw_eq hH, e7, pseq_false,
    pce_eq (Or.inl hCE), e8, pseq_false, pdu_eq hH, e9, e10]

/-- C2 counterexample: on a window with no prerequisites installed,
`polyfillShadowDOM` throws instead of skipping (it dereferences
`win.HTMLElement.prototype` with `HTMLElement` undefined), and the
whole `installPolyfills` run throws, aborting the remaining shims. -/
theorem c2_counterexample :
    (polyfillShadowDOM emptyWindow).thrown = true ∧
    (installPolyfills emptyWindow).thrown = true := by decide

/-- C2 (amended): `polyfillInnerText` and `polyfillMatchMedia` never
throw and silently skip; `installPolyfills` terminates without throwing
provided the window supplies the prerequisites — an `Element` class, an
`HTMLElement` class or a native `ShadowRoot`, and an `Event` class or a
native `CustomEvent`; a missing prerequisite makes the affected shim
throw and abort the remaining shims rather than skip. -/
theorem c2_install_nothrow_with_prereqs (w : Window)
    (hE : w.ElementProto ≠ none)
    (hS : w.ShadowRoot = true ∨ getHProto w ≠ none)
    (hC : w.CustomEvent = true ∨ w.EventCtor = true) :
    (installPolyfills w).thrown = false ∧
    (polyfillInnerText w).thrown = false ∧
    (polyfillMatchMedia w).thrown = false := by
  obtain ⟨ep0, hep0⟩ := Option.ne_none_iff_exists'.mp hE
  refine ⟨?_, ?_, ?_⟩
  · cases hgp : getHProto w with
    | some p0 =>
      obtain ⟨w', p', ep', heq, _⟩ := install_strong w p0 ep0 hgp hep0 hC
      rw [heq]
    | none =>
      have hsr : w.ShadowRoot = true := by
        rcases hS with h | h
        · exact h
        · exact absurd hgp h
      have hhr : w.HTMLElementRef = none := getHProto_none_href hgp hep0
      have h1 : getHProto { w with matchMedia := true } = none := hgp
      have hsr1 : ({ w with matchMedia := true } : Window).ShadowRoot =
          true := hsr
      have hhr1 : ({ w with matchMedia := true } :
          Window).HTMLElementRef = none := hhr
      have hep1 : ({ w with matchMedia := true } : Window).ElementProto =
          some ep0 := hep0
      have hqA : getHProto { { w with matchMedia := true } with
          HTMLElementRef := some HRef.aliasElement } = some ep0 := hep0
      have hEA : ({ { w with matchMedia := true } with
          HTMLElementRef := some HRef.aliasElement } :
          Window).ElementProto = some ep0 := hep0
      have hCA : ({ { w with matchMedia := true } with
          HTMLElementRef := some HRef.aliasElement } :
          Window).CustomEvent = true ∨
          ({ { w with matchMedia := true } with
          HTMLElementRef := some HRef.aliasElement } :
          Window).EventCtor = true := hC
      have hpea : polyfillElementAPIs { w with matchMedia := true } =
          polyfillElementAPIs { { w with matchMedia := true } with
            HTMLElementRef := some HRef.aliasElement } := by
        unfold polyfillElementAPIs
        rw [pma_alias hhr1 hep1, pma_skip (by simp)]
      obtain ⟨w', p', ep', heqT, _⟩ :=
        install_tail _ ep0 ep0 hqA hEA hCA
      unfold installPolyfills
      rw [pmm_eq, pseq_false, pit_none h1, pseq_false, psd_skip hsr1,
        pseq_false, hpea, heqT]
  · cases h : getHProto w with
    | none => rw [pit_none h]
    | some p => rw [pit_some h]
  · rw [pmm_eq]

/-- C2 witness: a concrete window carrying all prerequisites. -/
theorem c2_witness :
    (shadowOnlyWindow.ElementProto ≠ none ∧
      (shadowOnlyWindow.ShadowRoot = true ∨
        getHProto shadowOnlyWindow ≠ none) ∧
      (shadowOnlyWindow.CustomEvent = true ∨
        shadowOnlyWindow.EventCtor = true)) ∧
    (installPolyfills shadowOnlyWindow).thrown = false ∧
    (polyfillInnerText shadowOnlyWindow).thrown = false ∧
    (polyfillMatchMedia shadowOnlyWindow).thrown = false :=
  ⟨⟨by decide, Or.inl (by decide), Or.inr (by decide)⟩,
    c2_install_nothrow_with_prereqs shadowOnlyWindow (by decide)
      (Or.inl (by decide)) (Or.inr (by decide))⟩

/-- C8 counterexample: `installPolyfills` succeeds on
`shadowOnlyWindow`, yet applying it a second time to the result changes
the window again (the `innerText` accessor only gets installed on the
second pass), so a second application does not leave the window
untouched. -/
theorem c8_counterexample :
    (installPolyfills shadowOnlyWindow).thrown = false ∧
    (installPolyfills (installPolyfills shadowOnlyWindow).win).win ≠
      (installPolyfills shadowOnlyWindow).win := by decide

/-- C8 (amended): on every window that exposes an `HTMLElement`
prototype (besides an `Element` class and an `Event` class or native
`CustomEvent`), `installPolyfills` succeeds, and a second application to
its output returns that output unchanged — every shim's presence guard
finds the feature installed. -/
theorem c8_idempotent_with_html_element (w : Window)
    (hH : getHProto w ≠ none) (hE : w.ElementProto ≠ none)
    (hC : w.CustomEvent = true ∨ w.EventCtor = true) :
    (installPolyfills w).thrown = false ∧
    installPolyfills ((installPolyfills w).win) =
      { thrown := false, win := (installPolyfills w).win } := by
  obtain ⟨p0, hp0⟩ := Option.ne_none_iff_exists'.mp hH
  obtain ⟨ep0, hep0⟩ := Option.ne_none_iff_exists'.mp hE
  obtain ⟨w', p', ep', heq, hq', hE', hin, hcon, hrem, hrw, hsc, hcl,
    hmst, hmm, hsr, hce, hro, hio⟩ := install_strong w p0 ep0 hp0 hep0 hC
  rw [heq]
  exact ⟨rfl, install_fix w' p' ep' hmm hsr hce hro hio hq' hE' hin hcon
    hrem hrw hsc hcl hmst⟩

/-- C8 witness: a concrete window with all three classes present. -/
theorem c8_witness :
    (getHProto ownProtoWindow ≠ none) ∧
    (installPolyfills ownProtoWindow).thrown = false ∧
    installPolyfills ((installPolyfills ownProtoWindow).win) =
      { thrown := false, win := (installPolyfills ownProtoWindow).win } :=
  ⟨by decide,
    c8_idempotent_with_html_element _ (by decide) (by decide)
      (Or.inr (by decide))⟩

/-! ## Lemmas on the backfilled replaceWith, and claim C9 -/

theorem elem_mem_map_conv (id : Nat) (args : List Arg) :
    (Item.elem id ∈ args.map convArg) ↔ id ∈ argNodeIds args := by
  rw [argNodeIds, List.mem_filterMap, List.mem_map]
  constructor
  · rintro ⟨a, ha, hc⟩
    refine ⟨a, ha, ?_⟩
    cases a with
    | node j => cases hc; rfl
    | str s => cases hc
  · rintro ⟨a, ha, hc⟩
    refine ⟨a, ha, ?_⟩
    cases a with
    | node j => cases hc; rfl
    | str s => cases hc

theorem argNodeIds_node (id : Nat) (rest : List Arg) :
    argNodeIds (Arg.node id :: rest) = id :: argNodeIds rest := rfl

theorem argNodeIds_str (s : String) (rest : List Arg) :
    argNodeIds (Arg.str s :: rest) = argNodeIds rest := rfl

/-- The reverse fragment-building loop computes exactly the detachments
of the node arguments together with the converted arguments in their
original input order, as long as no node argument repeats. -/
theorem foldr_rwStep_eq (d0 : Doc) (args : List Arg)
    (hnd : (argNodeIds args).Nodup) :
    args.foldr rwStep (d0, []) = (detachArgs d0 args, args.map convArg) := by
  induction args with
  | nil => rfl
  | cons a rest ih =>
    have hrest : (argNodeIds rest).Nodup := by
      cases a with
      | node id =>
        rw [argNodeIds_node] at hnd
        exact hnd.of_cons
      | str s =>
        rw [argNodeIds_str] at hnd
        exact hnd
    rw [List.foldr_cons, ih hrest]
    cases a with
    | str s => rfl
    | node id =>
      have hmem : Item.elem id ∉ rest.map convArg := by
        rw [elem_mem_map_conv]
        rw [argNodeIds_node] at hnd
        exact (List.nodup_cons.mp hnd).1
      show rwStep (Arg.node id) (detachArgs d0 rest, rest.map convArg) = _
      unfold rwStep
      dsimp only
      rw [if_neg hmem]
      have hd : detachArgs d0 (Arg.node id :: rest) =
          match findParent (detachArgs d0 rest) id with
          | some q => removeChild (detachArgs d0 rest) q id
          | none => detachArgs d0 rest := rfl
      rw [hd]
      cases findParent (detachArgs d0 rest) id <;> rfl

theorem findParent_mem_keys {d : Doc} {e p : Nat}
    (h : findParent d e = some p) : p ∈ d.map Prod.fst := by
  induction d with
  | nil => cases h
  | cons en rest ih =>
    obtain ⟨c, ch⟩ := en
    unfold findParent at h
    by_cases hm : Item.elem e ∈ ch
    · rw [if_pos hm] at h
      cases h
      exact List.mem_cons_self _ _
    · rw [if_neg hm] at h
      exact List.mem_cons_of_mem _ (ih h)

/-- The container `findParent` locates is found again by an id lookup
when container ids are unique, and it holds the element. -/
theorem lookup_of_findParent {d : Doc} {e p : Nat}
    (h : findParent d e = some p) (hwf : (d.map Prod.fst).Nodup) :
    ∃ ch, d.lookup p = some ch ∧ Item.elem e ∈ ch := by
  induction d with
  | nil => cases h
  | cons en rest ih =>
    obtain ⟨c, ch⟩ := en
    unfold findParent at h
    by_cases hm : Item.elem e ∈ ch
    · rw [if_pos hm] at h
      cases h
      exact ⟨ch, by simp [List.lookup], hm⟩
    · rw [if_neg hm] at h
      have hkeys : (rest.map Prod.fst).Nodup := hwf.of_cons
      obtain ⟨ch2, hl, hmem⟩ := ih h hkeys
      refine ⟨ch2, ?_, hmem⟩
      have hcp : c ≠ p := by
        intro hcp
        subst hcp
        exact (List.nodup_cons.mp hwf).1 (findParent_mem_keys h)
      have hpc : (p == c) = false := beq_eq_false_iff_ne.mpr (Ne.symm hcp)
      simp [List.lookup, hpc, hl]

theorem lookup_removeChild (d : Doc) (p q id : Nat) :
    (removeChild d q id).lookup p =
      match d.lookup p with
      | none => none
      | some ch =>
        some (if p = q then ch.filter (fun it => it ≠ Item.elem id)
              else ch) := by
  induction d with
  | nil => rfl
  | cons en rest ih =>
    obtain ⟨c, ch⟩ := en
    have hhead : removeChild ((c, ch) :: rest) q id =
        (if c = q then (c, ch.filter (fun it => it ≠ Item.elem id))
          else (c, ch)) :: removeChild rest q id := rfl
    rw [hhead]
    by_cases hcp : c = p
    · subst hcp
      by_cases hcq : c = q
      · rw [if_pos hcq]
        simp [List.lookup, hcq]
      · rw [if_neg hcq]
        simp [List.lookup, hcq]
    · have hpc : (p == c) = false := beq_eq_false_iff_ne.mpr (Ne.symm hcp)
      by_cases hcq : c = q
      · rw [if_pos hcq]
        simp [List.lookup, hpc, ih]
      · rw [if_neg hcq]
        simp [List.lookup, hpc, ih]

/-- Detaching the node arguments never loses an element that is not one
of them from its container. -/
theorem lookup_detachArgs {d : Doc} {p e : Nat} {args : List Arg}
    (hne : e ∉ argNodeIds args)
    (hbase : ∃ ch, d.lookup p = some ch ∧ Item.elem e ∈ ch) :
    ∃ ch2, (detachArgs d args).lookup p = some ch2 ∧ Item.elem e ∈ ch2 := by
  induction args with
  | nil => exact hbase
  | cons a rest ih =>
    have hne' : e ∉ argNodeIds rest := by
      cases a with
      | node id => rw [argNodeIds_node] at hne; exact fun h => hne (List.mem_cons_of_mem _ h)
      | str s => rw [argNodeIds_str] at hne; exact hne
    obtain ⟨ch2, hl, hm⟩ := ih hne'
    cases a with
    | str s => exact ⟨ch2, hl, hm⟩
    | node id =>
      have hid : e ≠ id := by
        rw [argNodeIds_node] at hne
        intro h
        exact hne (h ▸ List.mem_cons_self _ _)
      have hstep : detachArgs d (Arg.node id :: rest) =
          match findParent (detachArgs d rest) id with
          | some q => removeChild (detachArgs d rest) q id
          | none => detachArgs d rest := rfl
      rw [hstep]
      cases hf : findParent (detachArgs d rest) id with
      | none => exact ⟨ch2, hl, hm⟩
      | some q =>
        rw [lookup_removeChild, hl]
        refine ⟨_, rfl, ?_⟩
        by_cases hpq : p = q
        · rw [if_pos hpq]
          refine List.mem_filter.mpr ⟨hm, ?_⟩
          simp
          intro hx
          cases hx
          exact hid rfl
        · rw [if_neg hpq]
          exact hm

/-- C9: the backfilled `replaceWith`, called with pairwise-distinct node
arguments not containing the target element, in a document with unique
container ids: on an element with no parent it does nothing; on an
element with parent `p` it detaches every node argument from its prior
parent, builds the fragment holding the converted arguments in their
original input order, and substitutes it for the element by a single
parent-level replace. -/
theorem c9_replaceWith_spec (doc : Doc) (e : Nat) (args : List Arg)
    (hnd : (argNodeIds args).Nodup)
    (hne : e ∉ argNodeIds args)
    (hwf : (doc.map Prod.fst).Nodup) :
    (findParent doc e = none → replaceWith doc e args = some doc) ∧
    (∀ p, findParent doc e = some p →
      replaceWith doc e args =
        some ((detachArgs doc args).map (fun en =>
          if en.1 = p then (en.1, spliceList en.2 e (args.map convArg))
          else en))) := by
  constructor
  · intro h
    unfold replaceWith
    rw [h]
  · intro p hp
    unfold replaceWith
    rw [hp]
    dsimp only
    rw [foldr_rwStep_eq _ _ hnd]
    obtain ⟨ch2, hl, hm⟩ :=
      lookup_detachArgs hne (lookup_of_findParent hp hwf)
    unfold replaceChildFrag
    rw [hl]
    dsimp only
    rw [if_pos hm]

/-- C9 witness: a concrete replacement with one string and one foreign
node argument. -/
theorem c9_witness :
    ((argNodeIds [Arg.str "x", Arg.node 7]).Nodup ∧
      1 ∉ argNodeIds [Arg.str "x", Arg.node 7] ∧
      findParent [(0, [Item.elem 1, Item.elem 2]), (5, [Item.elem 7])] 1 =
        some 0) ∧
    replaceWith [(0, [Item.elem 1, Item.elem 2]), (5, [Item.elem 7])] 1
        [Arg.str "x", Arg.node 7] =
      some [(0, [Item.text "x", Item.elem 7, Item.elem 2]), (5, [])] := by
  refine ⟨⟨by decide, by decide, by decide⟩, ?_⟩
  have h := (c9_replaceWith_spec
    [(0, [Item.elem 1, Item.elem 2]), (5, [Item.elem 7])] 1
    [Arg.str "x", Arg.node 7] (by decide) (by decide) (by decide)).2 0
    (by decide)
  rw [h]
  decide
